import Mathlib

/-!
Shallow embedding of `src/video/include/ait/video/GstreamerPipeline.h`
(Quad3DR repository): the SPSC bounded queue, the correspondence-matching
queue (`AppSrcSinkQueue`) and the pipeline supervisor (`GstreamerPipeline`),
together with theorems settling the specification claims.

Machine integers: frame counters, buffer offsets and correspondence ids are
small in every claimed scenario, so they are modelled as `Nat` (the C++
`guint64`/`int` values never approach their wrap-around points in the
properties below).  Time points are modelled as `Int` seconds.  External
effects (GStreamer library calls) are modelled by explicit parameters
(e.g. the flow return of `gst_app_src_push_buffer`) and by instrumentation
fields recording the calls that were made.
-/

/-- Snapshot of a buffer's timing fields, as stored in the pending user-data
queue (`GstreamerBufferInfo` from `GstMetaCorrespondence.h`; its fields are
exactly those read and written in `pushData`/`newSampleCallback`). -/
structure GstreamerBufferInfo where
  pts : Nat
  dts : Nat
  duration : Nat
  offset : Nat
  offset_end : Nat
deriving DecidableEq, Repr

/-- Model of the contents of a `GstBuffer` as far as the bridge observes it:
the five timing fields, an abstract payload identity (preserved by
`gst_buffer_copy_deep`), and the correspondence-id metadata side channel.

Modelled from the spec: the correspondence metadata facility
(`gst_buffer_add_correspondence_meta`, `gst_buffer_correspondence_meta_has`,
`gst_buffer_correspondence_meta_get_id` from `GstMetaCorrespondence.h`,
which is not under `src/`) stamps an integer id onto a buffer and reads it
back; `none` models a buffer with no retrievable id (no meta, or the `-1`
sentinel). -/
structure GstBufferModel where
  pts : Nat
  dts : Nat
  duration : Nat
  offset : Nat
  offset_end : Nat
  payload : Nat
  correspondence_meta : Option Nat
deriving DecidableEq, Repr

/-- The timing snapshot taken by `pushData` after a successful
`gst_app_src_push_buffer` (reads `GST_BUFFER_PTS/DTS/DURATION/OFFSET/OFFSET_END`). -/
def bufferInfoOf (b : GstBufferModel) : GstreamerBufferInfo :=
  { pts := b.pts, dts := b.dts, duration := b.duration,
    offset := b.offset, offset_end := b.offset_end }

/-- Stamping of a matched output buffer from the pending entry's timing
snapshot (`newSampleCallback`, the five `GST_BUFFER_* = buffer_info.*` writes). -/
def stampFromInfo (info : GstreamerBufferInfo) (b : GstBufferModel) : GstBufferModel :=
  { b with pts := info.pts, dts := info.dts, duration := info.duration,
           offset := info.offset, offset_end := info.offset_end }

/-- Result of a `popFront` overload of `SPSCFixedQueue`: `lockError` models the
`runtime_error` thrown when the passed `unique_lock` does not own its mutex,
`undef` models calling `queue_.front()` on an empty deque (undefined
behaviour, outside the contract), and `ok x q notified` returns the removed
front element, the remaining queue, and whether
`queue_space_available_condition_` was notified. -/
inductive PopResult (T Q : Type) where
  | lockError : PopResult T Q
  | undef : PopResult T Q
  | ok : T → Q → Bool → PopResult T Q
deriving DecidableEq, Repr

/-- State of `SPSCFixedQueue<T>`: the deque contents, the fixed capacity and
the `discard_everything_` (drain mode) flag. -/
structure SPSCFixedQueue (T : Type) where
  queue : List T
  max_queue_size : Nat
  discard_everything : Bool
deriving DecidableEq, Repr

namespace SPSCFixedQueue

/-- The `popFrontWithoutLocking` helper: moves out `queue_.front()`, pops it, and
notifies the space-available condition.  On an empty deque `front()` is
undefined behaviour, modelled as `undef`. -/
def popFrontWithoutLocking (q : SPSCFixedQueue T) : PopResult T (SPSCFixedQueue T) :=
  match q.queue with
  | [] => PopResult.undef
  | x :: xs => PopResult.ok x { q with queue := xs } true

/-- Overload `popFront(const std::unique_lock&)`: throws a
`runtime_error` when the lock does not own its mutex (`if (!lock)`), before
touching the queue; otherwise delegates to `popFrontWithoutLocking`. -/
def popFrontUnique (lock_owns : Bool) (q : SPSCFixedQueue T) :
    PopResult T (SPSCFixedQueue T) :=
  if lock_owns then popFrontWithoutLocking q else PopResult.lockError

/-- Overload `popFront(const std::lock_guard&)`: delegates directly,
with no ownership check (a `lock_guard` cannot be queried). -/
def popFrontLockGuard (q : SPSCFixedQueue T) : PopResult T (SPSCFixedQueue T) :=
  popFrontWithoutLocking q

/-- The argument-free `popFront()` overload: acquires the internal mutex and
delegates, with no ownership check. -/
def popFrontSelf (q : SPSCFixedQueue T) : PopResult T (SPSCFixedQueue T) :=
  popFrontWithoutLocking q

/-- Non-blocking branch of `pushBack`: push and return `true` if a slot is
free, otherwise return `false` immediately. -/
def pushBackNonBlocking (element : T) (q : SPSCFixedQueue T) :
    Bool × SPSCFixedQueue T :=
  if q.queue.length < q.max_queue_size then
    (true, { q with queue := q.queue ++ [element] })
  else
    (false, q)

/-- Blocking branch of `pushBack`: the wait loop
`while (size >= max && !discard) wait_for(100ms, ...)` followed by
`if (discard) return false` and the push.  Each entry of `env` is the
change the other threads (consumer pops, `setDiscardEverything`) perform on
the queue state during one bounded wait; `none` models a producer that
waits forever because the environment list is exhausted while the queue is
still full with drain mode off. -/
def pushBackBlockingLoop (element : T) :
    List (SPSCFixedQueue T → SPSCFixedQueue T) → SPSCFixedQueue T →
    Option (Bool × SPSCFixedQueue T)
  | [], q =>
    if q.queue.length ≥ q.max_queue_size ∧ q.discard_everything = false then
      none
    else if q.discard_everything then
      some (false, q)
    else
      some (true, { q with queue := q.queue ++ [element] })
  | f :: env2, q =>
    if q.queue.length ≥ q.max_queue_size ∧ q.discard_everything = false then
      pushBackBlockingLoop element env2 (f q)
    else if q.discard_everything then
      some (false, q)
    else
      some (true, { q with queue := q.queue ++ [element] })

/-- The method `pushBack(T&, bool block)`: dispatches to the blocking wait loop or the
non-blocking branch. -/
def pushBack (element : T) (block : Bool)
    (env : List (SPSCFixedQueue T → SPSCFixedQueue T)) (q : SPSCFixedQueue T) :
    Option (Bool × SPSCFixedQueue T) :=
  if block then pushBackBlockingLoop element env q
  else some (pushBackNonBlocking element q)

/-- Iterated application of the environment steps observed by the blocking
wait loop. -/
def applyEnv (env : List (SPSCFixedQueue T → SPSCFixedQueue T))
    (q : SPSCFixedQueue T) : SPSCFixedQueue T :=
  env.foldl (fun s f => f s) q

/-- A queue state in which the wait loop keeps waiting: full and not in
drain mode. -/
def fullNoDrain (q : SPSCFixedQueue T) : Prop :=
  q.queue.length ≥ q.max_queue_size ∧ q.discard_everything = false

end SPSCFixedQueue


/-- Model of `GstMapInfo` as far as the wrapper stores it: the data pointer
and the mapped size. -/
structure GstMapInfo where
  data : Nat
  size : Nat
deriving DecidableEq, Repr

/-- State of a `GstBufferWrapper` (which inherits the raw pointer from
`GstWrapper<GstBuffer>`): `ptr = none` models a null pointer. -/
structure GstBufferWrapper where
  ptr : Option GstBufferModel
  owns_buffer : Bool
  info : GstMapInfo
  mapped : Bool
  mapped_writable : Bool
deriving DecidableEq, Repr

namespace GstBufferWrapper

/-- Effect of `unmap()`: `gst_buffer_unmap` and clearing of both mapping
flags. -/
def unmapEff (w : GstBufferWrapper) : GstBufferWrapper :=
  { w with mapped := false, mapped_writable := false }

/-- Effect of `GstBufferWrapper::unref()`: when the pointer is non-null,
unmap if mapped and unref the buffer if owned.  Returns
`(did_unmap, did_gst_buffer_unref, state afterwards)`. -/
def unrefEff (w : GstBufferWrapper) : Bool × Bool × GstBufferWrapper :=
  match w.ptr with
  | none => (false, false, w)
  | some _ =>
    if w.mapped then (true, w.owns_buffer, unmapEff w)
    else (false, w.owns_buffer, w)

/-- The destructor `~GstBufferWrapper` calls `unref()`. -/
def destructorEff (w : GstBufferWrapper) : Bool × Bool × GstBufferWrapper :=
  unrefEff w

/-- Move construction: `GstWrapper`'s move constructor transfers the pointer
and nulls the source; `GstBufferWrapper`'s move constructor then copies
`owns_buffer_`, `info_`, `mapped_` and `mapped_writable_`.  Returns the
newly constructed wrapper and the moved-from wrapper. -/
def moveConstruct (other : GstBufferWrapper) : GstBufferWrapper × GstBufferWrapper :=
  ({ ptr := other.ptr, owns_buffer := other.owns_buffer, info := other.info,
     mapped := other.mapped, mapped_writable := other.mapped_writable },
   { other with ptr := none })

/-- Move assignment: `GstWrapper::operator=` first calls `unref()` on the
destination, then takes the pointer and nulls the source;
`GstBufferWrapper::operator=` then copies `owns_buffer_`, `info_` and
`mapped_` (but not `mapped_writable_`).  Returns the assigned-to wrapper and
the moved-from wrapper. -/
def moveAssign (dest other : GstBufferWrapper) : GstBufferWrapper × GstBufferWrapper :=
  let destU := (unrefEff dest).2.2
  ({ destU with ptr := other.ptr, owns_buffer := other.owns_buffer,
                info := other.info, mapped := other.mapped },
   { other with ptr := none })

end GstBufferWrapper

/-- The `DiscardMode` enum of `AppSrcSinkQueue`. -/
inductive DiscardMode where
  | DISCARD_INPUT_FRAMES : DiscardMode
  | DISCARD_OUTPUT_FRAMES : DiscardMode
deriving DecidableEq, Repr

/-- State of `AppSrcSinkQueue<TUserData>`: the inherited SPSC output queue
(`Base`, elements are matched `(buffer, user_data)` pairs), the pending
user-data side queue with its mutex-protected contents, the overflow/fail
counters, the input bound and the discard mode.  `pushed_buffers` is
instrumentation recording every buffer handed to `gst_app_src_push_buffer`
(the ingest port), so that claims about the absence of ingest calls are statable.
The diagnostic rate counters (`ait::RateCounter`, byte counters) only feed
log output and are not modelled. -/
structure AppSrcSinkQueue (U : Type) where
  base : SPSCFixedQueue (GstBufferModel × U)
  user_data_queue : List (GstreamerBufferInfo × U)
  src_overflow_counter : Nat
  sink_overflow_counter : Nat
  correspondence_fail_counter : Nat
  max_input_queue_size : Nat
  discard_mode : DiscardMode
  pushed_buffers : List GstBufferModel
deriving DecidableEq, Repr

namespace AppSrcSinkQueue

/-- Constant `FRAME_DROP_REPORT_RATE`. -/
def FRAME_DROP_REPORT_RATE : Nat := 10

/-- Constant `CORRESPONDENCE_FAIL_REPORT_RATE`. -/
def CORRESPONDENCE_FAIL_REPORT_RATE : Nat := 5

/-- Constant `MAX_USER_DATA_QUEUE_SIZE`. -/
def MAX_USER_DATA_QUEUE_SIZE : Nat := 100

/-- The method `pushData(appsrc, buffer, user_data)`.  Here `flow_ok` models the return of
`gst_app_src_push_buffer` being `GST_FLOW_OK` (the buffer is recorded in
`pushed_buffers` whenever that call is made).  Under
`DISCARD_INPUT_FRAMES`, a pending queue at or above the input bound causes
an immediate `false` return before any ingest call; on ingest success, a
pending queue at the safety bound first evicts its oldest entry and counts
the drop (reset to `0` when the throttled warning is printed), then the
timing snapshot and user data are appended. -/
def pushData (flow_ok : Bool) (buffer : GstBufferModel) (user_data : U)
    (s : AppSrcSinkQueue U) : Bool × AppSrcSinkQueue U :=
  if s.discard_mode = DiscardMode.DISCARD_INPUT_FRAMES ∧
      s.user_data_queue.length ≥ s.max_input_queue_size then
    (false, s)
  else
    let s1 := { s with pushed_buffers := s.pushed_buffers ++ [buffer] }
    if flow_ok then
      let s2 :=
        if s1.user_data_queue.length ≥ MAX_USER_DATA_QUEUE_SIZE then
          { s1 with
            user_data_queue := s1.user_data_queue.tail,
            src_overflow_counter :=
              if s1.src_overflow_counter + 1 ≥ FRAME_DROP_REPORT_RATE then 0
              else s1.src_overflow_counter + 1 }
        else s1
      (true, { s2 with
        user_data_queue := s2.user_data_queue ++ [(bufferInfoOf buffer, user_data)] })
    else
      (false, s1)

/-- Result of the matching do-while loop in `newSampleCallback`:
`found info u rest` is the entry whose offset equals the correspondence id
together with the remaining pending queue; `fatal rest` models the thrown
ordering-invariant `Error`, with the entries popped so far removed; `undef` models
`front()` on an emptied deque (the loop ran past the last entry). -/
inductive MatchOutcome (U : Type) where
  | found : GstreamerBufferInfo → U → List (GstreamerBufferInfo × U) → MatchOutcome U
  | fatal : List (GstreamerBufferInfo × U) → MatchOutcome U
  | undef : MatchOutcome U
deriving DecidableEq, Repr

/-- The do-while loop of `newSampleCallback`: pop the front entry; throw if
the correspondence id is smaller than its offset; repeat while the id is
larger.  The caller guarantees a non-empty queue on entry (the `[]` case is
reachable only by running past the last entry). -/
def matchLoop (correspondence_id : Nat) :
    List (GstreamerBufferInfo × U) → MatchOutcome U
  | [] => MatchOutcome.undef
  | (info, u) :: rest =>
    if correspondence_id < info.offset then MatchOutcome.fatal rest
    else if correspondence_id > info.offset then matchLoop correspondence_id rest
    else MatchOutcome.found info u rest

/-- Message of the `runtime_error` thrown when no sample can be pulled and
the appsink is not at end-of-stream. -/
def pullSampleFailMessage : String :=
  "Unable to pull new sample from appsink"

/-- Message of the fatal ordering-invariant `Error` thrown inside the
matching do-while loop. -/
def orderingViolationMessage : String :=
  "Correspondence id is smaller than first element in user data queue"

/-- Outcome of `newSampleCallback`: `flowOk` is a normal `GST_FLOW_OK`
return with the resulting state; `fatal` models an exception thrown out of
the callback (message and state at the throw); `blocked` models a blocking
output push that never returns in the sequential model; `undef` models
undefined behaviour (`front()` on an empty deque inside the do-while
loop). -/
inductive CallbackOutcome (U : Type) where
  | flowOk : AppSrcSinkQueue U → CallbackOutcome U
  | fatal : String → AppSrcSinkQueue U → CallbackOutcome U
  | blocked : CallbackOutcome U
  | undef : CallbackOutcome U
deriving DecidableEq, Repr

/-- The method `newSampleCallback(appsink)`.  Here `sample` is the buffer carried by the
sample pulled from the appsink (`none` models a null sample, with `eos`
telling whether the appsink is at end-of-stream); `env` is the environment
of a blocking output push as in `SPSCFixedQueue.pushBackBlockingLoop`.
Steps, as in the source: pull the sample; on null, EOS is a normal return
and anything else throws; read the correspondence id off the buffer (an
unretrievable id counts and throttles the fail counter and returns); deep
copy the buffer and release the sample (the copy has the same field values,
so the model keeps `buffer`); take the pending-queue lock, discard the
sample if the queue is empty, otherwise run the matching do-while loop;
stamp the copy's timing fields from the matched entry; publish the pair
with a blocking push unless the mode is `DISCARD_OUTPUT_FRAMES`, counting
and throttling drops on a failed push. -/
def newSampleCallback
    (env : List (SPSCFixedQueue (GstBufferModel × U) → SPSCFixedQueue (GstBufferModel × U)))
    (sample : Option GstBufferModel) (eos : Bool) (s : AppSrcSinkQueue U) :
    CallbackOutcome U :=
  match sample with
  | none =>
    if eos then CallbackOutcome.flowOk s
    else CallbackOutcome.fatal pullSampleFailMessage s
  | some buffer =>
    match buffer.correspondence_meta with
    | none =>
      CallbackOutcome.flowOk
        { s with correspondence_fail_counter :=
            if s.correspondence_fail_counter + 1 ≥ CORRESPONDENCE_FAIL_REPORT_RATE then 0
            else s.correspondence_fail_counter + 1 }
    | some correspondence_id =>
      if s.user_data_queue.isEmpty then CallbackOutcome.flowOk s
      else
        match matchLoop correspondence_id s.user_data_queue with
        | MatchOutcome.undef => CallbackOutcome.undef
        | MatchOutcome.fatal rest =>
          CallbackOutcome.fatal orderingViolationMessage
            { s with user_data_queue := rest }
        | MatchOutcome.found info u rest =>
          let stamped := stampFromInfo info buffer
          let block := decide (s.discard_mode ≠ DiscardMode.DISCARD_OUTPUT_FRAMES)
          match SPSCFixedQueue.pushBack (stamped, u) block env s.base with
          | none => CallbackOutcome.blocked
          | some (true, base2) =>
            CallbackOutcome.flowOk { s with base := base2, user_data_queue := rest }
          | some (false, base2) =>
            CallbackOutcome.flowOk
              { s with base := base2, user_data_queue := rest,
                       sink_overflow_counter :=
                         if s.sink_overflow_counter + 1 ≥ FRAME_DROP_REPORT_RATE then 0
                         else s.sink_overflow_counter + 1 }

end AppSrcSinkQueue

/-- State of `GstreamerPipeline<TUserData>` as far as the claims observe it:
the owned `AppSrcSinkQueue`, the frame counter, the watchdog stall counter,
the time of the last appsink sample and the in-flight delivery flag.  The
native pipeline handle, caps and the message thread are external; the clock
is modelled as `Int` seconds passed in at each call. -/
structure GstreamerPipeline (U : Type) where
  appsrcsink_queue : AppSrcSinkQueue U
  frame_counter : Nat
  watchdog_counter : Nat
  last_appsink_sample_time : Int
  delivering_appsink_sample : Bool
deriving DecidableEq, Repr

/-- Pipeline-level outcome of `newAppsinkSampleCallback`, mirroring
`AppSrcSinkQueue.CallbackOutcome` with the full pipeline state. -/
inductive PipelineCbOutcome (U : Type) where
  | flowOk : GstreamerPipeline U → PipelineCbOutcome U
  | fatal : String → GstreamerPipeline U → PipelineCbOutcome U
  | blocked : PipelineCbOutcome U
  | undef : PipelineCbOutcome U
deriving DecidableEq, Repr

namespace GstreamerPipeline

/-- Constant `WATCHDOG_RESET_COUNT`. -/
def WATCHDOG_RESET_COUNT : Nat := 10

/-- Constant `WATCHDOG_TIMEOUT` (2 seconds). -/
def WATCHDOG_TIMEOUT : Int := 2

/-- Sentinel `GST_CLOCK_TIME_NONE` (maximal guint64), written into the DTS
field by `pushInput`. -/
def GST_CLOCK_TIME_NONE : Nat := 2 ^ 64 - 1

/-- Sentinel `GST_BUFFER_OFFSET_NONE` (maximal guint64), written into the
offset-end field by `pushInput`. -/
def GST_BUFFER_OFFSET_NONE : Nat := 2 ^ 64 - 1

/-- The nominal frame duration stamped by `pushInput`:
`GST_SECOND * (1/10.)` nanoseconds. -/
def GST_FRAME_PERIOD : Nat := 100000000

/-- The method `stop()`: enables drain mode on the output queue and shuts the pipeline
down (state change and thread join are external effects). -/
def stop (p : GstreamerPipeline U) : GstreamerPipeline U :=
  { p with appsrcsink_queue := { p.appsrcsink_queue with
      base := { p.appsrcsink_queue.base with discard_everything := true } } }

/-- The method `start()` at time `now`: clears the output queue (`clear()` empties the
inherited SPSC deque only), disables drain mode, zeroes the watchdog
counter and records `now` as the last appsink sample time (thread spawn and
the PLAYING transition are external effects). -/
def start (now : Int) (p : GstreamerPipeline U) : GstreamerPipeline U :=
  { p with
    appsrcsink_queue := { p.appsrcsink_queue with
      base := { p.appsrcsink_queue.base with queue := [], discard_everything := false } },
    watchdog_counter := 0,
    last_appsink_sample_time := now }

/-- The timing overwrite and metadata attachment performed by `pushInput`
before handing the buffer to `pushData`: the PTS computed from the pipeline
clock (passed in as `stamped_pts`), `GST_CLOCK_TIME_NONE` as DTS, the
nominal frame duration, `frame_counter_` as offset,
`GST_BUFFER_OFFSET_NONE` as offset-end, and the correspondence meta id
`static_cast<int>(GST_BUFFER_OFFSET(...))`, i.e. the frame counter. -/
def stampForPush (stamped_pts : Nat) (frame_counter : Nat)
    (b : GstBufferModel) : GstBufferModel :=
  { b with pts := stamped_pts, dts := GST_CLOCK_TIME_NONE,
           duration := GST_FRAME_PERIOD, offset := frame_counter,
           offset_end := GST_BUFFER_OFFSET_NONE,
           correspondence_meta := some frame_counter }

/-- The tail of `pushInput` after the watchdog check: stamp the buffer,
delegate to `pushData`, and advance `frame_counter_` only on success. -/
def pushInputCore (stamped_pts : Nat) (flow_ok : Bool) (buffer : GstBufferModel)
    (user_data : U) (p : GstreamerPipeline U) : Bool × GstreamerPipeline U :=
  let stamped := stampForPush stamped_pts p.frame_counter buffer
  let r := AppSrcSinkQueue.pushData flow_ok stamped user_data p.appsrcsink_queue
  if r.1 then
    (true, { p with appsrcsink_queue := r.2, frame_counter := p.frame_counter + 1 })
  else
    (false, { p with appsrcsink_queue := r.2 })

/-- The method `pushInput(buffer, user_data)` at time `now`.  The watchdog check first:
when no delivery is in flight and the last appsink sample is at least
`WATCHDOG_TIMEOUT` old, the stall counter is incremented and, at
`WATCHDOG_RESET_COUNT`, the pipeline is stopped, restarted and the call
fails; otherwise a positive stall counter is reset.  Then the buffer is
stamped and pushed. -/
def pushInput (now : Int) (stamped_pts : Nat) (flow_ok : Bool)
    (buffer : GstBufferModel) (user_data : U) (p : GstreamerPipeline U) :
    Bool × GstreamerPipeline U :=
  if p.delivering_appsink_sample = false ∧
      now - p.last_appsink_sample_time ≥ WATCHDOG_TIMEOUT then
    if p.watchdog_counter + 1 ≥ WATCHDOG_RESET_COUNT then
      (false, start now (stop { p with watchdog_counter := p.watchdog_counter + 1 }))
    else
      pushInputCore stamped_pts flow_ok buffer user_data
        { p with watchdog_counter := p.watchdog_counter + 1 }
  else
    pushInputCore stamped_pts flow_ok buffer user_data
      (if p.watchdog_counter > 0 then { p with watchdog_counter := 0 } else p)

/-- The method `newAppsinkSampleCallback`: sets the in-flight flag and returns what the
queue's `newSampleCallback` returns.  The two statements after the `return`
(updating `last_appsink_sample_time_` and clearing
`delivering_appsink_sample_`) are unreachable dead code in the source and
therefore absent from the model. -/
def newAppsinkSampleCallback
    (env : List (SPSCFixedQueue (GstBufferModel × U) → SPSCFixedQueue (GstBufferModel × U)))
    (sample : Option GstBufferModel) (eos : Bool) (p : GstreamerPipeline U) :
    PipelineCbOutcome U :=
  let p1 := { p with delivering_appsink_sample := true }
  match AppSrcSinkQueue.newSampleCallback env sample eos p1.appsrcsink_queue with
  | AppSrcSinkQueue.CallbackOutcome.flowOk s2 =>
    PipelineCbOutcome.flowOk { p1 with appsrcsink_queue := s2 }
  | AppSrcSinkQueue.CallbackOutcome.fatal msg s2 =>
    PipelineCbOutcome.fatal msg { p1 with appsrcsink_queue := s2 }
  | AppSrcSinkQueue.CallbackOutcome.blocked => PipelineCbOutcome.blocked
  | AppSrcSinkQueue.CallbackOutcome.undef => PipelineCbOutcome.undef

/-- The method `popOutput()` (argument-free overload): pops the front of the
matched-output queue. -/
def popOutput (p : GstreamerPipeline U) :
    PopResult (GstBufferModel × U) (GstreamerPipeline U) :=
  match SPSCFixedQueue.popFrontSelf p.appsrcsink_queue.base with
  | PopResult.undef => PopResult.undef
  | PopResult.lockError => PopResult.lockError
  | PopResult.ok x b2 n =>
    PopResult.ok x
      { p with appsrcsink_queue := { p.appsrcsink_queue with base := b2 } } n

/-- Run harness: a sequence of `pushInput` calls, each at its own time, all
with a `GST_FLOW_OK` ingest result, collecting the returned Booleans. -/
def runPushInputs (stamped_pts : Nat) :
    List (Int × GstBufferModel × U) → GstreamerPipeline U →
    List Bool × GstreamerPipeline U
  | [], p => ([], p)
  | (now, b, u) :: rest, p =>
    let r := pushInput now stamped_pts true b u p
    let rr := runPushInputs stamped_pts rest r.2
    (r.1 :: rr.1, rr.2)

/-- Run harness: a sequence of `pushInput` calls all at the same time `now`,
all with a `GST_FLOW_OK` ingest result. -/
def runPushInputsAt (now : Int) (stamped_pts : Nat) :
    List (GstBufferModel × U) → GstreamerPipeline U →
    List Bool × GstreamerPipeline U
  | [], p => ([], p)
  | (b, u) :: rest, p =>
    let r := pushInput now stamped_pts true b u p
    let rr := runPushInputsAt now stamped_pts rest r.2
    (r.1 :: rr.1, rr.2)

/-- Run harness: deliver a list of egress sample buffers through
`newAppsinkSampleCallback`; `none` as soon as a delivery does not return
`GST_FLOW_OK`. -/
def runDeliveries : List GstBufferModel → GstreamerPipeline U →
    Option (GstreamerPipeline U)
  | [], p => some p
  | b :: rest, p =>
    match newAppsinkSampleCallback [] (some b) false p with
    | PipelineCbOutcome.flowOk p2 => runDeliveries rest p2
    | _ => none

/-- Run harness: `n` successive `popOutput()` calls, collecting the popped
pairs (`none` marks a pop that hit an empty queue). -/
def runPops : Nat → GstreamerPipeline U →
    List (Option (GstBufferModel × U)) × GstreamerPipeline U
  | 0, p => ([], p)
  | n + 1, p =>
    match popOutput p with
    | PopResult.ok x p2 _ =>
      let rr := runPops n p2
      (some x :: rr.1, rr.2)
    | _ => (List.replicate (n + 1) none, p)

/-- The pending entries appended by a sequence of successful `pushInput`
calls starting at frame counter `c`. -/
def pendingEntriesFrom (stamped_pts : Nat) :
    Nat → List (GstBufferModel × U) → List (GstreamerBufferInfo × U)
  | _, [] => []
  | c, (b, u) :: rest =>
    (bufferInfoOf (stampForPush stamped_pts c b), u) ::
      pendingEntriesFrom stamped_pts (c + 1) rest

/-- The matched output pairs produced when the egress results `results`
meet the pending entries `pend` one-for-one, in order. -/
def matchedPairs : List GstBufferModel → List (GstreamerBufferInfo × U) →
    List (GstBufferModel × U)
  | [], _ => []
  | _, [] => []
  | b :: results, e :: pend => (stampFromInfo e.1 b, e.2) :: matchedPairs results pend

end GstreamerPipeline

namespace SPSCFixedQueue

theorem applyEnv_cons (g : SPSCFixedQueue T → SPSCFixedQueue T)
    (env : List (SPSCFixedQueue T → SPSCFixedQueue T)) (q : SPSCFixedQueue T) :
    applyEnv (g :: env) q = applyEnv env (g q) := rfl

/-- The blocking wait loop exits immediately with `false` once drain mode is
set, whatever the environment does later. -/
theorem pushBackBlockingLoop_discard (element : T)
    (env : List (SPSCFixedQueue T → SPSCFixedQueue T)) (q : SPSCFixedQueue T)
    (h : q.discard_everything = true) :
    pushBackBlockingLoop element env q = some (false, q) := by
  have hng : ¬ (q.queue.length ≥ q.max_queue_size ∧ q.discard_everything = false) := by
    intro hcon
    rw [h] at hcon
    exact Bool.true_eq_false.mp hcon.2
  cases env with
  | nil => rw [pushBackBlockingLoop, if_neg hng, if_pos h]
  | cons f env2 => rw [pushBackBlockingLoop, if_neg hng, if_pos h]

/-- The blocking wait loop inserts at once when a slot is free and drain mode
is off. -/
theorem pushBackBlockingLoop_push (element : T)
    (env : List (SPSCFixedQueue T → SPSCFixedQueue T)) (q : SPSCFixedQueue T)
    (hlen : q.queue.length < q.max_queue_size) (hdrain : q.discard_everything = false) :
    pushBackBlockingLoop element env q =
      some (true, { q with queue := q.queue ++ [element] }) := by
  have hng : ¬ (q.queue.length ≥ q.max_queue_size ∧ q.discard_everything = false) := by
    intro hcon
    exact absurd hcon.1 (Nat.not_le_of_lt hlen)
  have hnd : ¬ (q.discard_everything = true) := by
    rw [hdrain]
    exact Bool.false_ne_true
  cases env with
  | nil => rw [pushBackBlockingLoop, if_neg hng, if_neg hnd]
  | cons f env2 => rw [pushBackBlockingLoop, if_neg hng, if_neg hnd]

/-- If the queue stays full with drain mode off at every wait-loop wake-up
along `env₁` and the step `f` then switches drain mode on, the blocking wait
loop returns `false` without inserting the element. -/
theorem pushBackBlockingLoop_drain (element : T) :
    ∀ (env₁ : List (SPSCFixedQueue T → SPSCFixedQueue T))
      (q : SPSCFixedQueue T) (f : SPSCFixedQueue T → SPSCFixedQueue T)
      (env₂ : List (SPSCFixedQueue T → SPSCFixedQueue T)),
      (∀ pre suf, env₁ = pre ++ suf → fullNoDrain (applyEnv pre q)) →
      (f (applyEnv env₁ q)).discard_everything = true →
      pushBackBlockingLoop element (env₁ ++ f :: env₂) q =
        some (false, f (applyEnv env₁ q)) := by
  intro env₁
  induction env₁ with
  | nil =>
    intro q f env₂ hfull hdrain
    have hq : fullNoDrain q := hfull [] [] rfl
    have hq2 : q.queue.length ≥ q.max_queue_size ∧ q.discard_everything = false := hq
    show pushBackBlockingLoop element (f :: env₂) q = some (false, f (applyEnv [] q))
    rw [pushBackBlockingLoop, if_pos hq2]
    exact pushBackBlockingLoop_discard element env₂ (f q) hdrain
  | cons g rest ih =>
    intro q f env₂ hfull hdrain
    have hq : fullNoDrain q := hfull [] (g :: rest) rfl
    have hq2 : q.queue.length ≥ q.max_queue_size ∧ q.discard_everything = false := hq
    rw [List.cons_append, pushBackBlockingLoop, if_pos hq2]
    rw [applyEnv_cons] at hdrain ⊢
    refine ih (g q) f env₂ ?_ hdrain
    intro pre suf hps
    have hfg := hfull (g :: pre) suf (by rw [List.cons_append, hps])
    rwa [applyEnv_cons] at hfg

/-- C8: a blocking `pushBack` returns `false` without inserting when drain
mode is set on entry, or when it becomes set while the producer waits on a
full queue; it inserts and returns `true` when the queue is not full and
drain mode is off; a non-blocking `pushBack` on a full queue returns `false`
immediately without inserting. -/
theorem C8_pushBack_policy (element : T) :
    (∀ (env : List (SPSCFixedQueue T → SPSCFixedQueue T)) (q : SPSCFixedQueue T),
        q.discard_everything = true →
        pushBack element true env q = some (false, q)) ∧
    (∀ (q : SPSCFixedQueue T) (env₁ : List (SPSCFixedQueue T → SPSCFixedQueue T))
        (f : SPSCFixedQueue T → SPSCFixedQueue T)
        (env₂ : List (SPSCFixedQueue T → SPSCFixedQueue T)),
        (∀ pre suf, env₁ = pre ++ suf → fullNoDrain (applyEnv pre q)) →
        (f (applyEnv env₁ q)).discard_everything = true →
        pushBack element true (env₁ ++ f :: env₂) q =
          some (false, f (applyEnv env₁ q))) ∧
    (∀ (env : List (SPSCFixedQueue T → SPSCFixedQueue T)) (q : SPSCFixedQueue T),
        q.queue.length < q.max_queue_size → q.discard_everything = false →
        pushBack element true env q =
          some (true, { q with queue := q.queue ++ [element] })) ∧
    (∀ (env : List (SPSCFixedQueue T → SPSCFixedQueue T)) (q : SPSCFixedQueue T),
        q.queue.length ≥ q.max_queue_size →
        pushBack element false env q = some (false, q)) := by
  refine ⟨?_, ?_, ?_, ?_⟩
  · intro env q h
    rw [pushBack, if_pos rfl]
    exact pushBackBlockingLoop_discard element env q h
  · intro q env₁ f env₂ hfull hdrain
    rw [pushBack, if_pos rfl]
    exact pushBackBlockingLoop_drain element env₁ q f env₂ hfull hdrain
  · intro env q hlen hdrain
    rw [pushBack, if_pos rfl]
    exact pushBackBlockingLoop_push element env q hlen hdrain
  · intro env q hlen
    simp only [pushBack, Bool.false_eq_true, if_false, pushBackNonBlocking]
    rw [if_neg (Nat.not_lt_of_le hlen)]

/-- Witness for C8 at concrete inputs: drain already set; drain set while
waiting on a full queue; free slot with drain off; non-blocking on a full
queue. -/
theorem C8_pushBack_policy_witness :
    (pushBack 7 true [] (SPSCFixedQueue.mk [1] 1 true) =
      some (false, SPSCFixedQueue.mk [1] 1 true)) ∧
    (pushBack 7 true [fun s => { s with discard_everything := true }]
        (SPSCFixedQueue.mk [1] 1 false) =
      some (false, SPSCFixedQueue.mk [1] 1 true)) ∧
    (pushBack 7 true [] (SPSCFixedQueue.mk ([] : List Nat) 1 false) =
      some (true, SPSCFixedQueue.mk [7] 1 false)) ∧
    (pushBack 7 false [] (SPSCFixedQueue.mk [1] 1 false) =
      some (false, SPSCFixedQueue.mk [1] 1 false)) := by
  refine ⟨?_, ?_, ?_, ?_⟩
  · exact (C8_pushBack_policy 7).1 [] (SPSCFixedQueue.mk [1] 1 true) rfl
  · exact (C8_pushBack_policy 7).2.1 (SPSCFixedQueue.mk [1] 1 false) []
      (fun s => { s with discard_everything := true }) []
      (by
        intro pre suf hps
        rcases List.append_eq_nil.mp hps.symm with ⟨rfl, rfl⟩
        exact ⟨Nat.le_refl 1, rfl⟩)
      rfl
  · exact (C8_pushBack_policy 7).2.2.1 [] (SPSCFixedQueue.mk ([] : List Nat) 1 false)
      (by decide) rfl
  · exact (C8_pushBack_policy 7).2.2.2 [] (SPSCFixedQueue.mk [1] 1 false) (Nat.le_refl 1)

/-- C10: the `unique_lock` overload of `popFront` throws (before touching the
queue, which is therefore unchanged) when the lock does not own its mutex,
and otherwise removes and returns the front element, notifying the
space-available condition; the `lock_guard` and argument-free overloads
perform no ownership check; no overload checks for a non-empty queue (an
empty queue is undefined behaviour). -/
theorem C10_popFront_overloads :
    (∀ (q : SPSCFixedQueue T), popFrontUnique false q = PopResult.lockError) ∧
    (∀ (q : SPSCFixedQueue T) (x : T) (xs : List T), q.queue = x :: xs →
        popFrontUnique true q = PopResult.ok x { q with queue := xs } true) ∧
    (∀ (q : SPSCFixedQueue T),
        popFrontLockGuard q = popFrontWithoutLocking q ∧
        popFrontSelf q = popFrontWithoutLocking q) ∧
    (∀ (q : SPSCFixedQueue T), q.queue = [] →
        popFrontUnique true q = PopResult.undef ∧
        popFrontLockGuard q = PopResult.undef ∧
        popFrontSelf q = PopResult.undef) := by
  refine ⟨fun q => rfl, ?_, fun q => ⟨rfl, rfl⟩, ?_⟩
  · intro q x xs hq
    simp only [popFrontUnique, if_pos rfl, popFrontWithoutLocking, hq, if_true]
  · intro q hq
    refine ⟨?_, ?_, ?_⟩ <;>
      simp only [popFrontUnique, popFrontLockGuard, popFrontSelf, if_pos rfl,
        popFrontWithoutLocking, hq, if_true]

/-- Witness for C10 at concrete inputs. -/
theorem C10_popFront_overloads_witness :
    (popFrontUnique false (SPSCFixedQueue.mk [5] 3 false) =
      PopResult.lockError) ∧
    (popFrontUnique true (SPSCFixedQueue.mk [5, 6] 3 false) =
      PopResult.ok 5 (SPSCFixedQueue.mk [6] 3 false) true) ∧
    (popFrontUnique true (SPSCFixedQueue.mk ([] : List Nat) 3 false) =
      PopResult.undef) := by
  refine ⟨?_, ?_, ?_⟩
  · exact C10_popFront_overloads.1 (SPSCFixedQueue.mk [5] 3 false)
  · exact C10_popFront_overloads.2.1 (SPSCFixedQueue.mk [5, 6] 3 false) 5 [6] rfl
  · exact (C10_popFront_overloads.2.2.2 (SPSCFixedQueue.mk ([] : List Nat) 3 false) rfl).1

end SPSCFixedQueue

/-- C6 counterexample: move assignment does not transfer the complete
mapping state.  Moving a mapped-writable wrapper into a fresh unmapped one
leaves the destination's `mapped_writable_` flag `false` although the
source's was `true` (the claim asserts the mapped-writable mode is
transferred by move assignment as well). -/
theorem C6_moveAssign_counterexample :
    (GstBufferWrapper.moveAssign
        (GstBufferWrapper.mk none true (GstMapInfo.mk 0 0) false false)
        (GstBufferWrapper.mk
          (some (GstBufferModel.mk 0 0 0 0 0 42 none)) true
          (GstMapInfo.mk 1 4) true true)).1.mapped_writable = false ∧
    (GstBufferWrapper.mk
        (some (GstBufferModel.mk 0 0 0 0 0 42 none)) true
        (GstMapInfo.mk 1 4) true true).mapped_writable = true := by
  exact ⟨rfl, rfl⟩

/-- C6 amended: move construction transfers the pointer, the owns flag, the
map info and both mapping flags; move assignment transfers the pointer, the
owns flag, the map info and the `mapped` flag, but not the mapped-writable
flag — the destination keeps the mapped-writable value left after releasing
its previous buffer.  In both cases the moved-from wrapper is left with a
null pointer, so its destruction performs no unmap and no unref. -/
theorem C6_move_semantics (dest other : GstBufferWrapper) :
    ((GstBufferWrapper.moveConstruct other).1.ptr = other.ptr ∧
     (GstBufferWrapper.moveConstruct other).1.owns_buffer = other.owns_buffer ∧
     (GstBufferWrapper.moveConstruct other).1.info = other.info ∧
     (GstBufferWrapper.moveConstruct other).1.mapped = other.mapped ∧
     (GstBufferWrapper.moveConstruct other).1.mapped_writable = other.mapped_writable) ∧
    ((GstBufferWrapper.moveAssign dest other).1.ptr = other.ptr ∧
     (GstBufferWrapper.moveAssign dest other).1.owns_buffer = other.owns_buffer ∧
     (GstBufferWrapper.moveAssign dest other).1.info = other.info ∧
     (GstBufferWrapper.moveAssign dest other).1.mapped = other.mapped ∧
     (GstBufferWrapper.moveAssign dest other).1.mapped_writable =
       (if dest.ptr.isSome ∧ dest.mapped then false else dest.mapped_writable)) ∧
    ((GstBufferWrapper.moveConstruct other).2.ptr = none ∧
     GstBufferWrapper.destructorEff (GstBufferWrapper.moveConstruct other).2 =
       (false, false, (GstBufferWrapper.moveConstruct other).2)) ∧
    ((GstBufferWrapper.moveAssign dest other).2.ptr = none ∧
     GstBufferWrapper.destructorEff (GstBufferWrapper.moveAssign dest other).2 =
       (false, false, (GstBufferWrapper.moveAssign dest other).2)) := by
  refine ⟨⟨rfl, rfl, rfl, rfl, rfl⟩, ⟨?_, ?_, ?_, ?_, ?_⟩, ⟨rfl, rfl⟩, ⟨rfl, rfl⟩⟩ <;>
    rcases hp : dest.ptr with _ | b <;>
      rcases hm : dest.mapped with _ | _ <;>
        simp [GstBufferWrapper.moveAssign, GstBufferWrapper.unrefEff,
          GstBufferWrapper.unmapEff, hp, hm]


namespace SPSCFixedQueue

/-- A `pushBack` with a free slot and drain mode off inserts and returns
`true`, in both blocking and non-blocking mode. -/
theorem pushBack_ok (x : T) (block : Bool)
    (env : List (SPSCFixedQueue T → SPSCFixedQueue T)) (q : SPSCFixedQueue T)
    (hroom : q.queue.length < q.max_queue_size)
    (hdrain : q.discard_everything = false) :
    pushBack x block env q = some (true, { q with queue := q.queue ++ [x] }) := by
  cases block with
  | true =>
    rw [pushBack, if_pos rfl]
    exact pushBackBlockingLoop_push x env q hroom hdrain
  | false =>
    simp only [pushBack, Bool.false_eq_true, if_false, pushBackNonBlocking]
    rw [if_pos hroom]

end SPSCFixedQueue

namespace AppSrcSinkQueue

/-- The matching do-while loop skips every leading entry whose offset is
below the correspondence id and returns the first entry whose offset equals
it. -/
theorem matchLoop_skip (id : Nat) :
    ∀ (stale : List (GstreamerBufferInfo × U)) (e : GstreamerBufferInfo × U)
      (rest : List (GstreamerBufferInfo × U)),
      (∀ x ∈ stale, x.1.offset < id) → e.1.offset = id →
      matchLoop id (stale ++ e :: rest) = MatchOutcome.found e.1 e.2 rest := by
  intro stale
  induction stale with
  | nil =>
    intro e rest _ he
    obtain ⟨info, u⟩ := e
    simp only [List.nil_append, matchLoop]
    simp only at he
    rw [he]
    simp
  | cons x xs ih =>
    intro e rest hstale he
    obtain ⟨info, u⟩ := x
    have hx : info.offset < id := hstale (info, u) (List.mem_cons_self _ _)
    rw [List.cons_append, matchLoop]
    rw [if_neg (by omega), if_pos hx]
    exact ih e rest (fun y hy => hstale y (List.mem_cons_of_mem _ hy)) he

end AppSrcSinkQueue

namespace AppSrcSinkQueue

/-- C4: when the pending queue consists of `stale` entries (offsets below
the arriving correspondence id) followed by the matching entry `e`, the
callback pops and silently discards the stale entries, uses `e`'s timing
fields and user data for the published pair, and the skipped entries are
gone from both the pending queue and the output queue (hence never
delivered by `popOutput`). -/
theorem C4_stale_entries_discarded
    (env : List (SPSCFixedQueue (GstBufferModel × U) → SPSCFixedQueue (GstBufferModel × U)))
    (eos : Bool) (s : AppSrcSinkQueue U) (buffer : GstBufferModel) (id : Nat)
    (stale : List (GstreamerBufferInfo × U)) (e : GstreamerBufferInfo × U)
    (rest : List (GstreamerBufferInfo × U))
    (hmeta : buffer.correspondence_meta = some id)
    (hq : s.user_data_queue = stale ++ e :: rest)
    (hstale : ∀ x ∈ stale, x.1.offset < id)
    (he : e.1.offset = id)
    (hroom : s.base.queue.length < s.base.max_queue_size)
    (hdrain : s.base.discard_everything = false) :
    newSampleCallback env (some buffer) eos s =
      CallbackOutcome.flowOk
        { s with
          base := { s.base with
            queue := s.base.queue ++ [(stampFromInfo e.1 buffer, e.2)] },
          user_data_queue := rest } := by
  have hne : s.user_data_queue.isEmpty = false := by
    rw [hq]; cases stale <;> rfl
  have hmatch : matchLoop id s.user_data_queue = MatchOutcome.found e.1 e.2 rest := by
    rw [hq]; exact matchLoop_skip id stale e rest hstale he
  simp only [newSampleCallback, hmeta, hne, Bool.false_eq_true, if_false, hmatch,
    SPSCFixedQueue.pushBack_ok (stampFromInfo e.1 buffer, e.2) _ env s.base hroom hdrain]

/-- Witness for C4 at concrete inputs: one stale entry (offset 0) is skipped
when the result with id 2 arrives and matches the entry with offset 2. -/
theorem C4_stale_entries_discarded_witness :
    newSampleCallback []
      (some (GstBufferModel.mk 1 1 1 1 1 77 (some 2))) false
      (AppSrcSinkQueue.mk (SPSCFixedQueue.mk [] 5 false)
        [(GstreamerBufferInfo.mk 0 0 0 0 0, 5),
         (GstreamerBufferInfo.mk 9 9 9 2 9, 7)]
        0 0 0 3 DiscardMode.DISCARD_OUTPUT_FRAMES []) =
      CallbackOutcome.flowOk
        (AppSrcSinkQueue.mk
          (SPSCFixedQueue.mk [(GstBufferModel.mk 9 9 9 2 9 77 (some 2), 7)] 5 false)
          [] 0 0 0 3 DiscardMode.DISCARD_OUTPUT_FRAMES []) := by
  exact C4_stale_entries_discarded [] false
    (AppSrcSinkQueue.mk (SPSCFixedQueue.mk [] 5 false)
      [(GstreamerBufferInfo.mk 0 0 0 0 0, 5),
       (GstreamerBufferInfo.mk 9 9 9 2 9, 7)]
      0 0 0 3 DiscardMode.DISCARD_OUTPUT_FRAMES [])
    (GstBufferModel.mk 1 1 1 1 1 77 (some 2)) 2
    [(GstreamerBufferInfo.mk 0 0 0 0 0, 5)]
    (GstreamerBufferInfo.mk 9 9 9 2 9, 7) []
    rfl rfl (by decide) rfl (by decide) rfl

/-- C5: when the pending queue is non-empty and a result arrives whose id is
strictly smaller than the offset of the oldest pending entry, the callback
throws the fatal ordering-invariant `Error` and publishes nothing (the
output queue of the state at the throw is unchanged). -/
theorem C5_ordering_violation_fatal
    (env : List (SPSCFixedQueue (GstBufferModel × U) → SPSCFixedQueue (GstBufferModel × U)))
    (eos : Bool) (s : AppSrcSinkQueue U) (buffer : GstBufferModel) (id : Nat)
    (e : GstreamerBufferInfo × U) (rest : List (GstreamerBufferInfo × U))
    (hmeta : buffer.correspondence_meta = some id)
    (hq : s.user_data_queue = e :: rest)
    (hlt : id < e.1.offset) :
    newSampleCallback env (some buffer) eos s =
      CallbackOutcome.fatal orderingViolationMessage
        { s with user_data_queue := rest } ∧
    ({ s with user_data_queue := rest } : AppSrcSinkQueue U).base = s.base := by
  refine ⟨?_, rfl⟩
  have hne : s.user_data_queue.isEmpty = false := by rw [hq]; rfl
  have hmatch : matchLoop id s.user_data_queue = MatchOutcome.fatal rest := by
    obtain ⟨info, u⟩ := e
    rw [hq, matchLoop, if_pos hlt]
  simp only [newSampleCallback, hmeta, hne, Bool.false_eq_true, if_false, hmatch]

/-- Witness for C5 at concrete inputs: result id 1 against a front entry
with offset 3. -/
theorem C5_ordering_violation_fatal_witness :
    newSampleCallback []
      (some (GstBufferModel.mk 1 1 1 1 1 50 (some 1))) false
      (AppSrcSinkQueue.mk (SPSCFixedQueue.mk [] 5 false)
        [(GstreamerBufferInfo.mk 0 0 0 3 0, 4)]
        0 0 0 3 DiscardMode.DISCARD_INPUT_FRAMES []) =
      CallbackOutcome.fatal orderingViolationMessage
        (AppSrcSinkQueue.mk (SPSCFixedQueue.mk [] 5 false)
          [] 0 0 0 3 DiscardMode.DISCARD_INPUT_FRAMES []) := by
  exact (C5_ordering_violation_fatal [] false
    (AppSrcSinkQueue.mk (SPSCFixedQueue.mk [] 5 false)
      [(GstreamerBufferInfo.mk 0 0 0 3 0, 4)]
      0 0 0 3 DiscardMode.DISCARD_INPUT_FRAMES [])
    (GstBufferModel.mk 1 1 1 1 1 50 (some 1)) 1
    (GstreamerBufferInfo.mk 0 0 0 3 0, 4) []
    rfl rfl (by decide)).1

/-- C9: under `DISCARD_OUTPUT_FRAMES` the matched pair is published with a
non-blocking push; when the output queue is full the pair is dropped (the
output queue is unchanged), the sink overflow counter is incremented (and
reset when the throttled warning fires), and the callback still returns
`GST_FLOW_OK`. -/
theorem C9_discard_output_drop
    (env : List (SPSCFixedQueue (GstBufferModel × U) → SPSCFixedQueue (GstBufferModel × U)))
    (eos : Bool) (s : AppSrcSinkQueue U) (buffer : GstBufferModel) (id : Nat)
    (e : GstreamerBufferInfo × U) (rest : List (GstreamerBufferInfo × U))
    (hmeta : buffer.correspondence_meta = some id)
    (hq : s.user_data_queue = e :: rest)
    (he : e.1.offset = id)
    (hmode : s.discard_mode = DiscardMode.DISCARD_OUTPUT_FRAMES)
    (hfull : s.base.queue.length ≥ s.base.max_queue_size) :
    newSampleCallback env (some buffer) eos s =
      CallbackOutcome.flowOk
        { s with
          user_data_queue := rest,
          sink_overflow_counter :=
            if s.sink_overflow_counter + 1 ≥ FRAME_DROP_REPORT_RATE then 0
            else s.sink_overflow_counter + 1 } ∧
    ({ s with
        user_data_queue := rest,
        sink_overflow_counter :=
          if s.sink_overflow_counter + 1 ≥ FRAME_DROP_REPORT_RATE then 0
          else s.sink_overflow_counter + 1 } : AppSrcSinkQueue U).base.queue
      = s.base.queue := by
  refine ⟨?_, rfl⟩
  have hne : s.user_data_queue.isEmpty = false := by rw [hq]; rfl
  have hmatch : matchLoop id s.user_data_queue = MatchOutcome.found e.1 e.2 rest := by
    rw [hq]
    exact matchLoop_skip id [] e rest (by intro x hx; cases hx) he
  have hblock : decide (s.discard_mode ≠ DiscardMode.DISCARD_OUTPUT_FRAMES) = false := by
    rw [hmode]; rfl
  have hpush : SPSCFixedQueue.pushBack (stampFromInfo e.1 buffer, e.2) false env s.base =
      some (false, s.base) := by
    simp only [SPSCFixedQueue.pushBack, Bool.false_eq_true, if_false,
      SPSCFixedQueue.pushBackNonBlocking]
    rw [if_neg (Nat.not_lt_of_le hfull)]
  simp only [newSampleCallback, hmeta, hne, Bool.false_eq_true, if_false, hmatch,
    hblock, hpush]

/-- Witness for C9 at concrete inputs: output queue of capacity 1 already
holding one pair; the newly matched pair is dropped and the overflow counter
goes from 0 to 1. -/
theorem C9_discard_output_drop_witness :
    newSampleCallback []
      (some (GstBufferModel.mk 1 1 1 1 1 60 (some 4))) false
      (AppSrcSinkQueue.mk
        (SPSCFixedQueue.mk [(GstBufferModel.mk 0 0 0 0 0 1 none, 9)] 1 false)
        [(GstreamerBufferInfo.mk 0 0 0 4 0, 6)]
        0 0 0 3 DiscardMode.DISCARD_OUTPUT_FRAMES []) =
      CallbackOutcome.flowOk
        (AppSrcSinkQueue.mk
          (SPSCFixedQueue.mk [(GstBufferModel.mk 0 0 0 0 0 1 none, 9)] 1 false)
          [] 0 1 0 3 DiscardMode.DISCARD_OUTPUT_FRAMES []) := by
  exact (C9_discard_output_drop [] false
    (AppSrcSinkQueue.mk
      (SPSCFixedQueue.mk [(GstBufferModel.mk 0 0 0 0 0 1 none, 9)] 1 false)
      [(GstreamerBufferInfo.mk 0 0 0 4 0, 6)]
      0 0 0 3 DiscardMode.DISCARD_OUTPUT_FRAMES [])
    (GstBufferModel.mk 1 1 1 1 1 60 (some 4)) 4
    (GstreamerBufferInfo.mk 0 0 0 4 0, 6) []
    rfl rfl rfl rfl (Nat.le_refl 1)).1

end AppSrcSinkQueue

namespace AppSrcSinkQueue

/-- C7: `pushData` keeps the pending user-data queue at or below
`MAX_USER_DATA_QUEUE_SIZE` (100) entries; when the queue has reached the
safety bound at the moment the ingest push succeeds, the oldest entry is
evicted and the drop counter incremented (reset when the throttled warning
fires) before the new entry is appended — whatever the discard mode. -/
theorem C7_pushData_safety_bound (s : AppSrcSinkQueue U) (flow_ok : Bool)
    (buffer : GstBufferModel) (u : U)
    (hbound : s.user_data_queue.length ≤ MAX_USER_DATA_QUEUE_SIZE) :
    ((pushData flow_ok buffer u s).2.user_data_queue.length ≤
        MAX_USER_DATA_QUEUE_SIZE) ∧
    (flow_ok = true →
      ¬ (s.discard_mode = DiscardMode.DISCARD_INPUT_FRAMES ∧
          s.user_data_queue.length ≥ s.max_input_queue_size) →
      s.user_data_queue.length ≥ MAX_USER_DATA_QUEUE_SIZE →
      (pushData flow_ok buffer u s).1 = true ∧
      (pushData flow_ok buffer u s).2.user_data_queue =
        s.user_data_queue.tail ++ [(bufferInfoOf buffer, u)] ∧
      (pushData flow_ok buffer u s).2.src_overflow_counter =
        (if s.src_overflow_counter + 1 ≥ FRAME_DROP_REPORT_RATE then 0
         else s.src_overflow_counter + 1)) := by
  by_cases hrej : s.discard_mode = DiscardMode.DISCARD_INPUT_FRAMES ∧
      s.user_data_queue.length ≥ s.max_input_queue_size
  · refine ⟨?_, fun _ hnrej _ => absurd hrej hnrej⟩
    simp only [pushData, if_pos hrej]
    exact hbound
  · cases flow_ok with
    | false =>
      refine ⟨?_, fun hfo _ _ => absurd hfo (by simp)⟩
      simp only [pushData, if_neg hrej, Bool.false_eq_true, if_false]
      exact hbound
    | true =>
      by_cases hev : s.user_data_queue.length ≥ MAX_USER_DATA_QUEUE_SIZE
      · have hpos : 1 ≤ s.user_data_queue.length := by
          have : (0 : Nat) < MAX_USER_DATA_QUEUE_SIZE := by decide
          omega
        constructor
        · simp only [pushData, if_neg hrej, reduceIte, if_pos hev,
            List.length_append, List.length_tail, List.length_cons,
            List.length_nil]
          simp only [MAX_USER_DATA_QUEUE_SIZE] at hbound ⊢
          omega
        · intro _ _ _
          refine ⟨?_, ?_, ?_⟩ <;>
            simp only [pushData, if_neg hrej, reduceIte, if_pos hev]
      · constructor
        · simp only [pushData, if_neg hrej, reduceIte, if_neg hev,
            List.length_append, List.length_cons, List.length_nil]
          omega
        · intro _ _ hev2
          exact absurd hev2 hev

/-- Witness for C7 at concrete inputs: a pending queue of exactly 100
entries, `DISCARD_INPUT_FRAMES` mode with a large input bound (so the
admission check passes and the eviction branch runs under that mode too). -/
theorem C7_pushData_safety_bound_witness :
    ((List.replicate 100 (GstreamerBufferInfo.mk 0 0 0 0 0, (5 : Nat))).length ≤
        MAX_USER_DATA_QUEUE_SIZE) ∧
    ((pushData true (GstBufferModel.mk 1 2 3 4 5 66 none) 7
        (AppSrcSinkQueue.mk (SPSCFixedQueue.mk [] 5 false)
          (List.replicate 100 (GstreamerBufferInfo.mk 0 0 0 0 0, (5 : Nat)))
          3 0 0 200 DiscardMode.DISCARD_INPUT_FRAMES [])).2.user_data_queue.length ≤
        MAX_USER_DATA_QUEUE_SIZE) ∧
    ((pushData true (GstBufferModel.mk 1 2 3 4 5 66 none) 7
        (AppSrcSinkQueue.mk (SPSCFixedQueue.mk [] 5 false)
          (List.replicate 100 (GstreamerBufferInfo.mk 0 0 0 0 0, (5 : Nat)))
          3 0 0 200 DiscardMode.DISCARD_INPUT_FRAMES [])).1 = true) ∧
    ((pushData true (GstBufferModel.mk 1 2 3 4 5 66 none) 7
        (AppSrcSinkQueue.mk (SPSCFixedQueue.mk [] 5 false)
          (List.replicate 100 (GstreamerBufferInfo.mk 0 0 0 0 0, (5 : Nat)))
          3 0 0 200 DiscardMode.DISCARD_INPUT_FRAMES [])).2.user_data_queue =
      (List.replicate 100 (GstreamerBufferInfo.mk 0 0 0 0 0, (5 : Nat))).tail ++
        [(bufferInfoOf (GstBufferModel.mk 1 2 3 4 5 66 none), 7)]) ∧
    ((pushData true (GstBufferModel.mk 1 2 3 4 5 66 none) 7
        (AppSrcSinkQueue.mk (SPSCFixedQueue.mk [] 5 false)
          (List.replicate 100 (GstreamerBufferInfo.mk 0 0 0 0 0, (5 : Nat)))
          3 0 0 200 DiscardMode.DISCARD_INPUT_FRAMES [])).2.src_overflow_counter =
      (if 3 + 1 ≥ FRAME_DROP_REPORT_RATE then 0 else 3 + 1)) := by
  have hb : (List.replicate 100 (GstreamerBufferInfo.mk 0 0 0 0 0, (5 : Nat))).length ≤
      MAX_USER_DATA_QUEUE_SIZE := by decide
  have h := C7_pushData_safety_bound
    (AppSrcSinkQueue.mk (SPSCFixedQueue.mk [] 5 false)
      (List.replicate 100 (GstreamerBufferInfo.mk 0 0 0 0 0, (5 : Nat)))
      3 0 0 200 DiscardMode.DISCARD_INPUT_FRAMES [])
    true (GstBufferModel.mk 1 2 3 4 5 66 none) 7 hb
  have h2 := h.2 rfl (by decide) (by decide)
  exact ⟨hb, h.1, h2.1, h2.2.1, h2.2.2⟩

end AppSrcSinkQueue

namespace GstreamerPipeline

/-- C3: under `DISCARD_INPUT_FRAMES`, when the pending user-data queue
already holds at least `max_input_queue_size_` entries, `pushData` returns
`false` with no side effects (state returned unchanged, so in particular no
buffer is handed to `gst_app_src_push_buffer` and nothing is appended), and
the enclosing `pushInput` returns `false` without advancing
`frame_counter_` (so no correspondence id is consumed), without appending a
pending entry and without an ingest call. -/
theorem C3_discard_input_rejects (p : GstreamerPipeline U) (now : Int)
    (stamped_pts : Nat) (flow_ok : Bool) (buffer : GstBufferModel) (u : U)
    (hmode : p.appsrcsink_queue.discard_mode = DiscardMode.DISCARD_INPUT_FRAMES)
    (hfull : p.appsrcsink_queue.user_data_queue.length ≥
      p.appsrcsink_queue.max_input_queue_size) :
    (∀ b : GstBufferModel,
      AppSrcSinkQueue.pushData flow_ok b u p.appsrcsink_queue =
        (false, p.appsrcsink_queue)) ∧
    (pushInput now stamped_pts flow_ok buffer u p).1 = false ∧
    (pushInput now stamped_pts flow_ok buffer u p).2.frame_counter =
      p.frame_counter ∧
    (pushInput now stamped_pts flow_ok buffer u p).2.appsrcsink_queue.user_data_queue =
      p.appsrcsink_queue.user_data_queue ∧
    (pushInput now stamped_pts flow_ok buffer u p).2.appsrcsink_queue.pushed_buffers =
      p.appsrcsink_queue.pushed_buffers := by
  have hpd : ∀ (b : GstBufferModel) (s : AppSrcSinkQueue U),
      s = p.appsrcsink_queue →
      AppSrcSinkQueue.pushData flow_ok b u s = (false, s) := by
    intro b s hs
    rw [AppSrcSinkQueue.pushData, if_pos (by rw [hs]; exact ⟨hmode, hfull⟩)]
  refine ⟨fun b => hpd b _ rfl, ?_⟩
  have hcore : ∀ q : GstreamerPipeline U,
      q.appsrcsink_queue = p.appsrcsink_queue →
      q.frame_counter = p.frame_counter →
      pushInputCore stamped_pts flow_ok buffer u q = (false, q) := by
    intro q hq hf
    rw [pushInputCore]
    simp only [hpd _ _ hq]
    simp
  rw [pushInput]
  by_cases hw : p.delivering_appsink_sample = false ∧
      now - p.last_appsink_sample_time ≥ WATCHDOG_TIMEOUT
  · rw [if_pos hw]
    by_cases hwc : p.watchdog_counter + 1 ≥ WATCHDOG_RESET_COUNT
    · rw [if_pos hwc]
      exact ⟨rfl, rfl, rfl, rfl⟩
    · rw [if_neg hwc, hcore { p with watchdog_counter := p.watchdog_counter + 1 } rfl rfl]
      exact ⟨rfl, rfl, rfl, rfl⟩
  · rw [if_neg hw]
    by_cases hwz : p.watchdog_counter > 0
    · rw [if_pos hwz, hcore { p with watchdog_counter := 0 } rfl rfl]
      exact ⟨rfl, rfl, rfl, rfl⟩
    · rw [if_neg hwz, hcore p rfl rfl]
      exact ⟨rfl, rfl, rfl, rfl⟩

/-- Witness for C3 at concrete inputs: `DISCARD_INPUT_FRAMES` with bound 1
and one outstanding entry; the next `pushInput` returns `false`, consumes no
frame id, appends nothing and makes no ingest call. -/
theorem C3_discard_input_rejects_witness :
    ((pushInput 0 0 true (GstBufferModel.mk 0 0 0 0 0 8 none) 9
        (GstreamerPipeline.mk
          (AppSrcSinkQueue.mk (SPSCFixedQueue.mk [] 5 false)
            [(GstreamerBufferInfo.mk 0 0 0 0 0, 4)]
            0 0 0 1 DiscardMode.DISCARD_INPUT_FRAMES [])
          1 0 0 false)).1 = false) ∧
    ((pushInput 0 0 true (GstBufferModel.mk 0 0 0 0 0 8 none) 9
        (GstreamerPipeline.mk
          (AppSrcSinkQueue.mk (SPSCFixedQueue.mk [] 5 false)
            [(GstreamerBufferInfo.mk 0 0 0 0 0, 4)]
            0 0 0 1 DiscardMode.DISCARD_INPUT_FRAMES [])
          1 0 0 false)).2.frame_counter = 1) ∧
    ((pushInput 0 0 true (GstBufferModel.mk 0 0 0 0 0 8 none) 9
        (GstreamerPipeline.mk
          (AppSrcSinkQueue.mk (SPSCFixedQueue.mk [] 5 false)
            [(GstreamerBufferInfo.mk 0 0 0 0 0, 4)]
            0 0 0 1 DiscardMode.DISCARD_INPUT_FRAMES [])
          1 0 0 false)).2.appsrcsink_queue.pushed_buffers = []) := by
  have h := C3_discard_input_rejects
    (GstreamerPipeline.mk
      (AppSrcSinkQueue.mk (SPSCFixedQueue.mk [] 5 false)
        [(GstreamerBufferInfo.mk 0 0 0 0 0, 4)]
        0 0 0 1 DiscardMode.DISCARD_INPUT_FRAMES [])
      1 0 0 false)
    0 0 true (GstBufferModel.mk 0 0 0 0 0 8 none) 9 rfl (Nat.le_refl 1)
  exact ⟨h.2.1, h.2.2.1, h.2.2.2.2⟩

end GstreamerPipeline

namespace GstreamerPipeline

/-- C2 evaluation at the failing input.  From a freshly started pipeline
(time 0), ten stalled `pushInput` calls (times 10..100, each more than
`WATCHDOG_TIMEOUT` after the last appsink sample, no intervening delivery)
do trigger the watchdog: nine succeed and the tenth fails with the stall
counter reset — as the claim says for a delivery-free run.  But after a
single successful egress delivery, the in-flight flag stays `true` and the
last-sample time stays 0 (the resetting statements sit after a `return` and
are dead code), so the same ten stalled calls all succeed and no stop/start
cycle ever happens, contradicting the claim for runs with prior
deliveries. -/
theorem C2_watchdog_dead_code_failing_run :
    ((runPushInputs 0
        [(10, GstBufferModel.mk 0 0 0 0 0 5 none, 1),
         (20, GstBufferModel.mk 0 0 0 0 0 5 none, 2),
         (30, GstBufferModel.mk 0 0 0 0 0 5 none, 3),
         (40, GstBufferModel.mk 0 0 0 0 0 5 none, 4),
         (50, GstBufferModel.mk 0 0 0 0 0 5 none, 5),
         (60, GstBufferModel.mk 0 0 0 0 0 5 none, 6),
         (70, GstBufferModel.mk 0 0 0 0 0 5 none, 7),
         (80, GstBufferModel.mk 0 0 0 0 0 5 none, 8),
         (90, GstBufferModel.mk 0 0 0 0 0 5 none, 9),
         (100, GstBufferModel.mk 0 0 0 0 0 5 none, 10)]
        (GstreamerPipeline.mk
          (AppSrcSinkQueue.mk (SPSCFixedQueue.mk [] 5 false) [] 0 0 0 3
            DiscardMode.DISCARD_OUTPUT_FRAMES [])
          0 0 0 false)).1 = List.replicate 9 true ++ [false] ∧
     (runPushInputs 0
        [(10, GstBufferModel.mk 0 0 0 0 0 5 none, 1),
         (20, GstBufferModel.mk 0 0 0 0 0 5 none, 2),
         (30, GstBufferModel.mk 0 0 0 0 0 5 none, 3),
         (40, GstBufferModel.mk 0 0 0 0 0 5 none, 4),
         (50, GstBufferModel.mk 0 0 0 0 0 5 none, 5),
         (60, GstBufferModel.mk 0 0 0 0 0 5 none, 6),
         (70, GstBufferModel.mk 0 0 0 0 0 5 none, 7),
         (80, GstBufferModel.mk 0 0 0 0 0 5 none, 8),
         (90, GstBufferModel.mk 0 0 0 0 0 5 none, 9),
         (100, GstBufferModel.mk 0 0 0 0 0 5 none, 10)]
        (GstreamerPipeline.mk
          (AppSrcSinkQueue.mk (SPSCFixedQueue.mk [] 5 false) [] 0 0 0 3
            DiscardMode.DISCARD_OUTPUT_FRAMES [])
          0 0 0 false)).2.watchdog_counter = 0) ∧
    ((pushInput 0 0 true (GstBufferModel.mk 0 0 0 0 0 5 none) 11
        (GstreamerPipeline.mk
          (AppSrcSinkQueue.mk (SPSCFixedQueue.mk [] 5 false) [] 0 0 0 3
            DiscardMode.DISCARD_OUTPUT_FRAMES [])
          0 0 0 false)).1 = true) ∧
    ((runDeliveries [GstBufferModel.mk 0 0 0 0 0 50 (some 0)]
        (pushInput 0 0 true (GstBufferModel.mk 0 0 0 0 0 5 none) 11
          (GstreamerPipeline.mk
            (AppSrcSinkQueue.mk (SPSCFixedQueue.mk [] 5 false) [] 0 0 0 3
              DiscardMode.DISCARD_OUTPUT_FRAMES [])
            0 0 0 false)).2).map
        (fun p => p.delivering_appsink_sample) = some true) ∧
    ((runDeliveries [GstBufferModel.mk 0 0 0 0 0 50 (some 0)]
        (pushInput 0 0 true (GstBufferModel.mk 0 0 0 0 0 5 none) 11
          (GstreamerPipeline.mk
            (AppSrcSinkQueue.mk (SPSCFixedQueue.mk [] 5 false) [] 0 0 0 3
              DiscardMode.DISCARD_OUTPUT_FRAMES [])
            0 0 0 false)).2).map
        (fun p => p.last_appsink_sample_time) = some 0) ∧
    ((runDeliveries [GstBufferModel.mk 0 0 0 0 0 50 (some 0)]
        (pushInput 0 0 true (GstBufferModel.mk 0 0 0 0 0 5 none) 11
          (GstreamerPipeline.mk
            (AppSrcSinkQueue.mk (SPSCFixedQueue.mk [] 5 false) [] 0 0 0 3
              DiscardMode.DISCARD_OUTPUT_FRAMES [])
            0 0 0 false)).2).map
        (fun p => (runPushInputs 0
          [(10, GstBufferModel.mk 0 0 0 0 0 5 none, 1),
           (20, GstBufferModel.mk 0 0 0 0 0 5 none, 2),
           (30, GstBufferModel.mk 0 0 0 0 0 5 none, 3),
           (40, GstBufferModel.mk 0 0 0 0 0 5 none, 4),
           (50, GstBufferModel.mk 0 0 0 0 0 5 none, 5),
           (60, GstBufferModel.mk 0 0 0 0 0 5 none, 6),
           (70, GstBufferModel.mk 0 0 0 0 0 5 none, 7),
           (80, GstBufferModel.mk 0 0 0 0 0 5 none, 8),
           (90, GstBufferModel.mk 0 0 0 0 0 5 none, 9),
           (100, GstBufferModel.mk 0 0 0 0 0 5 none, 10)] p).1) =
        some (List.replicate 10 true)) ∧
    ((runDeliveries [GstBufferModel.mk 0 0 0 0 0 50 (some 0)]
        (pushInput 0 0 true (GstBufferModel.mk 0 0 0 0 0 5 none) 11
          (GstreamerPipeline.mk
            (AppSrcSinkQueue.mk (SPSCFixedQueue.mk [] 5 false) [] 0 0 0 3
              DiscardMode.DISCARD_OUTPUT_FRAMES [])
            0 0 0 false)).2).map
        (fun p => ((runPushInputs 0
          [(10, GstBufferModel.mk 0 0 0 0 0 5 none, 1),
           (20, GstBufferModel.mk 0 0 0 0 0 5 none, 2),
           (30, GstBufferModel.mk 0 0 0 0 0 5 none, 3),
           (40, GstBufferModel.mk 0 0 0 0 0 5 none, 4),
           (50, GstBufferModel.mk 0 0 0 0 0 5 none, 5),
           (60, GstBufferModel.mk 0 0 0 0 0 5 none, 6),
           (70, GstBufferModel.mk 0 0 0 0 0 5 none, 7),
           (80, GstBufferModel.mk 0 0 0 0 0 5 none, 8),
           (90, GstBufferModel.mk 0 0 0 0 0 5 none, 9),
           (100, GstBufferModel.mk 0 0 0 0 0 5 none, 10)] p).2.watchdog_counter,
          (runPushInputs 0
          [(10, GstBufferModel.mk 0 0 0 0 0 5 none, 1),
           (20, GstBufferModel.mk 0 0 0 0 0 5 none, 2),
           (30, GstBufferModel.mk 0 0 0 0 0 5 none, 3),
           (40, GstBufferModel.mk 0 0 0 0 0 5 none, 4),
           (50, GstBufferModel.mk 0 0 0 0 0 5 none, 5),
           (60, GstBufferModel.mk 0 0 0 0 0 5 none, 6),
           (70, GstBufferModel.mk 0 0 0 0 0 5 none, 7),
           (80, GstBufferModel.mk 0 0 0 0 0 5 none, 8),
           (90, GstBufferModel.mk 0 0 0 0 0 5 none, 9),
           (100, GstBufferModel.mk 0 0 0 0 0 5 none, 10)] p).2.appsrcsink_queue.base.discard_everything)) =
        some (0, false)) := by
  exact ⟨⟨by decide, by decide⟩, by decide, by decide, by decide, by decide, by decide⟩

end GstreamerPipeline

namespace AppSrcSinkQueue

/-- Helper: `pushData` with a `GST_FLOW_OK` ingest, no input-bound rejection
and the pending queue strictly below the safety bound appends the timing
snapshot and user data and succeeds. -/
theorem pushData_success_no_evict (s : AppSrcSinkQueue U) (buffer : GstBufferModel)
    (u : U)
    (hmode1 : s.discard_mode = DiscardMode.DISCARD_INPUT_FRAMES →
      s.user_data_queue.length < s.max_input_queue_size)
    (hcap1 : s.user_data_queue.length < MAX_USER_DATA_QUEUE_SIZE) :
    pushData true buffer u s =
      (true, { s with
        user_data_queue := s.user_data_queue ++ [(bufferInfoOf buffer, u)],
        pushed_buffers := s.pushed_buffers ++ [buffer] }) := by
  have hrej : ¬ (s.discard_mode = DiscardMode.DISCARD_INPUT_FRAMES ∧
      s.user_data_queue.length ≥ s.max_input_queue_size) := by
    intro hcon
    exact absurd hcon.2 (Nat.not_le_of_lt (hmode1 hcon.1))
  have hev : ¬ (s.user_data_queue.length ≥ MAX_USER_DATA_QUEUE_SIZE) :=
    Nat.not_le_of_lt hcap1
  simp only [pushData, if_neg hrej, reduceIte, if_neg hev]

/-- Helper: the callback on a result whose id equals the offset of the
`(K+1)`-th pending entry, the first `K` being stale, publishes the stamped
pair and leaves the remaining pending entries (general form shared by the
matching claims and the end-to-end run). -/
theorem newSampleCallback_skip
    (env : List (SPSCFixedQueue (GstBufferModel × U) → SPSCFixedQueue (GstBufferModel × U)))
    (eos : Bool) (s : AppSrcSinkQueue U) (buffer : GstBufferModel) (id : Nat)
    (stale : List (GstreamerBufferInfo × U)) (e : GstreamerBufferInfo × U)
    (rest : List (GstreamerBufferInfo × U))
    (hmeta : buffer.correspondence_meta = some id)
    (hq : s.user_data_queue = stale ++ e :: rest)
    (hstale : ∀ x ∈ stale, x.1.offset < id)
    (he : e.1.offset = id)
    (hroom : s.base.queue.length < s.base.max_queue_size)
    (hdrain : s.base.discard_everything = false) :
    newSampleCallback env (some buffer) eos s =
      CallbackOutcome.flowOk
        { s with
          base := { s.base with
            queue := s.base.queue ++ [(stampFromInfo e.1 buffer, e.2)] },
          user_data_queue := rest } := by
  have hne : s.user_data_queue.isEmpty = false := by
    rw [hq]; cases stale <;> rfl
  have hmatch : matchLoop id s.user_data_queue = MatchOutcome.found e.1 e.2 rest := by
    rw [hq]; exact matchLoop_skip id stale e rest hstale he
  simp only [newSampleCallback, hmeta, hne, Bool.false_eq_true, if_false, hmatch,
    SPSCFixedQueue.pushBack_ok (stampFromInfo e.1 buffer, e.2) _ env s.base hroom hdrain]

end AppSrcSinkQueue

namespace GstreamerPipeline

/-- Helper: the watchdog else-branch (reset a positive stall counter) always
leaves the state with a zero stall counter. -/
theorem wcReset_eq (p : GstreamerPipeline U) :
    (if p.watchdog_counter > 0 then { p with watchdog_counter := 0 } else p) =
      { p with watchdog_counter := 0 } := by
  by_cases h : p.watchdog_counter > 0
  · rw [if_pos h]
  · rw [if_neg h]
    have h0 : p.watchdog_counter = 0 := Nat.eq_zero_of_not_pos h
    cases p with
    | mk a f w l d =>
      simp only at h0
      rw [h0]

/-- Helper: a `pushInput` whose watchdog guard is off, with a `GST_FLOW_OK`
ingest, no input-bound rejection and a pending queue strictly below the
safety bound, succeeds: it stamps the buffer with the current frame counter
(as offset and correspondence id), appends the pending entry, records the
ingest call, advances the frame counter and clears the stall counter. -/
theorem pushInput_success_step (p : GstreamerPipeline U) (now : Int)
    (stamped_pts : Nat) (b : GstBufferModel) (u : U)
    (hw : ¬ (p.delivering_appsink_sample = false ∧
      now - p.last_appsink_sample_time ≥ WATCHDOG_TIMEOUT))
    (hmode1 : p.appsrcsink_queue.discard_mode = DiscardMode.DISCARD_INPUT_FRAMES →
      p.appsrcsink_queue.user_data_queue.length <
        p.appsrcsink_queue.max_input_queue_size)
    (hcap1 : p.appsrcsink_queue.user_data_queue.length <
      AppSrcSinkQueue.MAX_USER_DATA_QUEUE_SIZE) :
    pushInput now stamped_pts true b u p =
      (true, { p with
        appsrcsink_queue := { p.appsrcsink_queue with
          user_data_queue := p.appsrcsink_queue.user_data_queue ++
            [(bufferInfoOf (stampForPush stamped_pts p.frame_counter b), u)],
          pushed_buffers := p.appsrcsink_queue.pushed_buffers ++
            [stampForPush stamped_pts p.frame_counter b] },
        frame_counter := p.frame_counter + 1,
        watchdog_counter := 0 }) := by
  rw [pushInput, if_neg hw, wcReset_eq, pushInputCore]
  simp only [AppSrcSinkQueue.pushData_success_no_evict _ _ _ hmode1 hcap1, reduceIte]

end GstreamerPipeline

namespace GstreamerPipeline

/-- Helper: a sequence of `pushInput` calls, all at a time within the
watchdog window, with room below the input bound (when in
`DISCARD_INPUT_FRAMES` mode) and below the safety bound, all succeed; they
append exactly the stamped pending entries, advance the frame counter by
the number of inputs, and touch neither the output queue nor the clock
fields. -/
theorem runPushInputsAt_spec (now : Int) (stamped_pts : Nat) :
    ∀ (inputs : List (GstBufferModel × U)) (p : GstreamerPipeline U),
      now - p.last_appsink_sample_time < WATCHDOG_TIMEOUT →
      (p.appsrcsink_queue.discard_mode = DiscardMode.DISCARD_INPUT_FRAMES →
        p.appsrcsink_queue.user_data_queue.length + inputs.length ≤
          p.appsrcsink_queue.max_input_queue_size) →
      p.appsrcsink_queue.user_data_queue.length + inputs.length ≤
        AppSrcSinkQueue.MAX_USER_DATA_QUEUE_SIZE →
      (runPushInputsAt now stamped_pts inputs p).1 =
        List.replicate inputs.length true ∧
      (runPushInputsAt now stamped_pts inputs p).2.appsrcsink_queue.user_data_queue =
        p.appsrcsink_queue.user_data_queue ++
          pendingEntriesFrom stamped_pts p.frame_counter inputs ∧
      (runPushInputsAt now stamped_pts inputs p).2.appsrcsink_queue.base =
        p.appsrcsink_queue.base ∧
      (runPushInputsAt now stamped_pts inputs p).2.appsrcsink_queue.discard_mode =
        p.appsrcsink_queue.discard_mode ∧
      (runPushInputsAt now stamped_pts inputs p).2.frame_counter =
        p.frame_counter + inputs.length ∧
      (runPushInputsAt now stamped_pts inputs p).2.last_appsink_sample_time =
        p.last_appsink_sample_time ∧
      (runPushInputsAt now stamped_pts inputs p).2.delivering_appsink_sample =
        p.delivering_appsink_sample := by
  intro inputs
  induction inputs with
  | nil =>
    intro p hnow hmode hcap
    refine ⟨rfl, ?_, rfl, rfl, rfl, rfl, rfl⟩
    simp [runPushInputsAt, pendingEntriesFrom]
  | cons bu rest ih =>
    obtain ⟨b, u⟩ := bu
    intro p hnow hmode hcap
    have hw : ¬ (p.delivering_appsink_sample = false ∧
        now - p.last_appsink_sample_time ≥ WATCHDOG_TIMEOUT) := by
      intro hcon
      exact absurd hcon.2 (Int.not_le.mpr hnow)
    have hmode1 : p.appsrcsink_queue.discard_mode = DiscardMode.DISCARD_INPUT_FRAMES →
        p.appsrcsink_queue.user_data_queue.length <
          p.appsrcsink_queue.max_input_queue_size := by
      intro hm
      have := hmode hm
      simp only [List.length_cons] at this
      omega
    have hcap1 : p.appsrcsink_queue.user_data_queue.length <
        AppSrcSinkQueue.MAX_USER_DATA_QUEUE_SIZE := by
      simp only [List.length_cons] at hcap
      omega
    have hstep := pushInput_success_step p now stamped_pts b u hw hmode1 hcap1
    rw [runPushInputsAt]
    simp only [hstep]
    set p2 : GstreamerPipeline U := { p with
      appsrcsink_queue := { p.appsrcsink_queue with
        user_data_queue := p.appsrcsink_queue.user_data_queue ++
          [(bufferInfoOf (stampForPush stamped_pts p.frame_counter b), u)],
        pushed_buffers := p.appsrcsink_queue.pushed_buffers ++
          [stampForPush stamped_pts p.frame_counter b] },
      frame_counter := p.frame_counter + 1,
      watchdog_counter := 0 } with hp2
    have hih := ih p2 (by rw [hp2]; exact hnow)
      (by
        rw [hp2]
        intro hm
        have := hmode hm
        simp only [List.length_cons] at this
        simp only [List.length_append, List.length_cons, List.length_nil]
        omega)
      (by
        rw [hp2]
        simp only [List.length_cons] at hcap
        simp only [List.length_append, List.length_cons, List.length_nil]
        omega)
    refine ⟨?_, ?_, ?_, ?_, ?_, ?_, ?_⟩
    · simp only [List.length_cons, List.replicate, hih.1]
    · rw [hih.2.1, hp2]
      simp only [pendingEntriesFrom, List.append_assoc, List.cons_append,
        List.nil_append]
    · rw [hih.2.2.1, hp2]
    · rw [hih.2.2.2.1, hp2]
    · rw [hih.2.2.2.2.1, hp2]
      simp only [List.length_cons]
      omega
    · rw [hih.2.2.2.2.2.1, hp2]
    · rw [hih.2.2.2.2.2.2, hp2]

end GstreamerPipeline

namespace GstreamerPipeline

/-- Helper: a delivery whose id equals the offset of the oldest pending
entry, with room in the output queue and drain mode off, publishes the
stamped pair, consumes that entry and raises the in-flight flag (the
last-sample time is untouched: the resetting code is dead). -/
theorem newAppsinkSampleCallback_front (p : GstreamerPipeline U)
    (b : GstBufferModel) (e : GstreamerBufferInfo × U)
    (rest : List (GstreamerBufferInfo × U))
    (hmeta : b.correspondence_meta = some e.1.offset)
    (hq : p.appsrcsink_queue.user_data_queue = e :: rest)
    (hroom : p.appsrcsink_queue.base.queue.length <
      p.appsrcsink_queue.base.max_queue_size)
    (hdrain : p.appsrcsink_queue.base.discard_everything = false) :
    newAppsinkSampleCallback [] (some b) false p =
      PipelineCbOutcome.flowOk
        { p with
          delivering_appsink_sample := true,
          appsrcsink_queue := { p.appsrcsink_queue with
            base := { p.appsrcsink_queue.base with
              queue := p.appsrcsink_queue.base.queue ++
                [(stampFromInfo e.1 b, e.2)] },
            user_data_queue := rest } } := by
  have hcb := AppSrcSinkQueue.newSampleCallback_skip
    ([] : List (SPSCFixedQueue (GstBufferModel × U) → SPSCFixedQueue (GstBufferModel × U)))
    false p.appsrcsink_queue b e.1.offset [] e rest hmeta
    (by rw [hq]; rfl) (by intro x hx; cases hx) rfl hroom hdrain
  rw [newAppsinkSampleCallback]
  simp only [hcb]

/-- Helper: delivering results that match the first pending entries
one-for-one (ids in pending order), with enough room in the output queue
and drain mode off, returns `GST_FLOW_OK` throughout, appends exactly the
matched pairs to the output queue and consumes exactly the matched pending
entries. -/
theorem runDeliveries_spec :
    ∀ (results : List GstBufferModel) (pend1 pend2 : List (GstreamerBufferInfo × U))
      (p : GstreamerPipeline U),
      p.appsrcsink_queue.user_data_queue = pend1 ++ pend2 →
      List.Forall₂ (fun b e => b.correspondence_meta = some e.1.offset)
        results pend1 →
      p.appsrcsink_queue.base.queue.length + results.length ≤
        p.appsrcsink_queue.base.max_queue_size →
      p.appsrcsink_queue.base.discard_everything = false →
      ∃ q, runDeliveries results p = some q ∧
        q.appsrcsink_queue.base.queue =
          p.appsrcsink_queue.base.queue ++ matchedPairs results pend1 ∧
        q.appsrcsink_queue.user_data_queue = pend2 ∧
        q.appsrcsink_queue.base.max_queue_size =
          p.appsrcsink_queue.base.max_queue_size ∧
        q.appsrcsink_queue.base.discard_everything = false := by
  intro results
  induction results with
  | nil =>
    intro pend1 pend2 p hq hf hcap hdrain
    cases hf
    refine ⟨p, rfl, ?_, ?_, rfl, hdrain⟩
    · simp [matchedPairs]
    · simpa using hq
  | cons b rs ih =>
    intro pend1 pend2 p hq hf hcap hdrain
    rcases hf with _ | ⟨hmeta, hf2⟩
    rename_i e pend1'
    have hroom : p.appsrcsink_queue.base.queue.length <
        p.appsrcsink_queue.base.max_queue_size := by
      simp only [List.length_cons] at hcap
      omega
    have hstep := newAppsinkSampleCallback_front p b e (pend1' ++ pend2) hmeta
      (by rw [hq, List.cons_append]) hroom hdrain
    rw [runDeliveries]
    simp only [hstep]
    set p2 : GstreamerPipeline U := { p with
      delivering_appsink_sample := true,
      appsrcsink_queue := { p.appsrcsink_queue with
        base := { p.appsrcsink_queue.base with
          queue := p.appsrcsink_queue.base.queue ++ [(stampFromInfo e.1 b, e.2)] },
        user_data_queue := pend1' ++ pend2 } } with hp2
    have hih := ih pend1' pend2 p2 (by rw [hp2])
      hf2
      (by
        rw [hp2]
        simp only [List.length_cons] at hcap
        simp only [List.length_append, List.length_cons, List.length_nil]
        omega)
      (by rw [hp2]; exact hdrain)
    obtain ⟨q, hrun, hout, hpend, hmax, hdr⟩ := hih
    refine ⟨q, hrun, ?_, hpend, ?_, hdr⟩
    · rw [hout, hp2]
      simp only [matchedPairs, List.append_assoc, List.cons_append, List.nil_append]
    · rw [hmax, hp2]

/-- Helper: popping as many outputs as the output queue holds returns
exactly its elements, in order. -/
theorem runPops_spec :
    ∀ (out : List (GstBufferModel × U)) (p : GstreamerPipeline U),
      p.appsrcsink_queue.base.queue = out →
      (runPops out.length p).1 = out.map some := by
  intro out
  induction out with
  | nil => intro p _; rfl
  | cons x xs ih =>
    intro p hq
    have hpop : popOutput p = PopResult.ok x
        { p with appsrcsink_queue := { p.appsrcsink_queue with
            base := { p.appsrcsink_queue.base with queue := xs } } } true := by
      rw [popOutput]
      simp only [SPSCFixedQueue.popFrontSelf, SPSCFixedQueue.popFrontWithoutLocking, hq]
    rw [List.length_cons, runPops]
    simp only [hpop]
    rw [ih _ rfl]
    rfl

end GstreamerPipeline

namespace GstreamerPipeline

/-- Helper: the matched pairs built from results and the stamped pending
entries carry the submitted user data in submission order, the delivered
payloads in delivery order, and the consecutive correspondence ids. -/
theorem matchedPairs_maps (stamped_pts : Nat) :
    ∀ (results : List GstBufferModel) (inputs : List (GstBufferModel × U)) (c : Nat),
      results.length = inputs.length →
      (matchedPairs results (pendingEntriesFrom stamped_pts c inputs)).map
          Prod.snd = inputs.map Prod.snd ∧
      (matchedPairs results (pendingEntriesFrom stamped_pts c inputs)).map
          (fun pr => pr.1.payload) = results.map GstBufferModel.payload ∧
      (matchedPairs results (pendingEntriesFrom stamped_pts c inputs)).map
          (fun pr => pr.1.offset) = List.range' c inputs.length := by
  intro results
  induction results with
  | nil =>
    intro inputs c hlen
    have : inputs = [] := List.eq_nil_of_length_eq_zero hlen.symm
    subst this
    exact ⟨rfl, rfl, rfl⟩
  | cons b rs ih =>
    intro inputs c hlen
    cases inputs with
    | nil => exact absurd hlen (by simp)
    | cons bu is =>
      obtain ⟨bb, u⟩ := bu
      have hlen2 : rs.length = is.length := by
        simpa using hlen
      have hih := ih is (c + 1) hlen2
      refine ⟨?_, ?_, ?_⟩
      · simp only [pendingEntriesFrom, matchedPairs, List.map_cons, hih.1]
      · simp only [pendingEntriesFrom, matchedPairs, List.map_cons, hih.2.1]
        rfl
      · simp only [pendingEntriesFrom, matchedPairs, List.map_cons, hih.2.2,
          List.length_cons, List.range'_succ]
        rfl

/-- Helper: indexed correspondence-id hypotheses turn into the pointwise
relation between delivered results and the stamped pending entries. -/
theorem forall₂_meta_pending (stamped_pts : Nat) :
    ∀ (results : List GstBufferModel) (inputs : List (GstBufferModel × U)) (c : Nat),
      results.length = inputs.length →
      (∀ (i : Nat) (h : i < results.length),
        (results.get ⟨i, h⟩).correspondence_meta = some (c + i)) →
      List.Forall₂ (fun b e => b.correspondence_meta = some e.1.offset)
        results (pendingEntriesFrom stamped_pts c inputs) := by
  intro results
  induction results with
  | nil =>
    intro inputs c hlen _
    have : inputs = [] := List.eq_nil_of_length_eq_zero hlen.symm
    subst this
    exact List.Forall₂.nil
  | cons b rs ih =>
    intro inputs c hlen hmeta
    cases inputs with
    | nil => exact absurd hlen (by simp)
    | cons bu is =>
      obtain ⟨bb, u⟩ := bu
      have hlen2 : rs.length = is.length := by simpa using hlen
      refine List.Forall₂.cons ?_ ?_
      · have h0 := hmeta 0 (by simp)
        simpa using h0
      · refine ih is (c + 1) hlen2 ?_
        intro i h
        have hi := hmeta (i + 1) (by simpa using Nat.succ_lt_succ h)
        simp only [List.get_cons_succ] at hi
        rw [hi]
        congr 1
        omega

end GstreamerPipeline

namespace GstreamerPipeline

/-- C1: starting from a pipeline with empty pending and output queues (and
enough capacity for the batch), a sequence of `pushInput` calls that all
succeed, followed by egress results carrying the same correspondence ids in
the same order, leads to `popOutput` returning pairs whose user data are
exactly the submitted user data in submission order, each paired with (the
deep copy of) the corresponding result buffer (same payload), with the
output-queue correspondence ids consecutive and hence non-decreasing. -/
theorem C1_submission_order_preserved (p : GstreamerPipeline U)
    (stamped_pts : Nat) (inputs : List (GstBufferModel × U))
    (results : List GstBufferModel)
    (hpend : p.appsrcsink_queue.user_data_queue = [])
    (hout : p.appsrcsink_queue.base.queue = [])
    (hdrain : p.appsrcsink_queue.base.discard_everything = false)
    (hmode : p.appsrcsink_queue.discard_mode = DiscardMode.DISCARD_INPUT_FRAMES →
      inputs.length ≤ p.appsrcsink_queue.max_input_queue_size)
    (hcap100 : inputs.length ≤ AppSrcSinkQueue.MAX_USER_DATA_QUEUE_SIZE)
    (hcapout : inputs.length ≤ p.appsrcsink_queue.base.max_queue_size)
    (hlen : results.length = inputs.length)
    (hmeta : ∀ (i : Nat) (h : i < results.length),
      (results.get ⟨i, h⟩).correspondence_meta = some (p.frame_counter + i)) :
    (runPushInputsAt p.last_appsink_sample_time stamped_pts inputs p).1 =
      List.replicate inputs.length true ∧
    ∃ q, runDeliveries results
        (runPushInputsAt p.last_appsink_sample_time stamped_pts inputs p).2 =
          some q ∧
      q.appsrcsink_queue.base.queue =
        matchedPairs results
          (pendingEntriesFrom stamped_pts p.frame_counter inputs) ∧
      (runPops inputs.length q).1 =
        (matchedPairs results
          (pendingEntriesFrom stamped_pts p.frame_counter inputs)).map some ∧
      (matchedPairs results
          (pendingEntriesFrom stamped_pts p.frame_counter inputs)).map
        Prod.snd = inputs.map Prod.snd ∧
      (matchedPairs results
          (pendingEntriesFrom stamped_pts p.frame_counter inputs)).map
        (fun pr => pr.1.payload) = results.map GstBufferModel.payload ∧
      (matchedPairs results
          (pendingEntriesFrom stamped_pts p.frame_counter inputs)).map
        (fun pr => pr.1.offset) = List.range' p.frame_counter inputs.length ∧
      List.Chain' (· ≤ ·)
        ((matchedPairs results
          (pendingEntriesFrom stamped_pts p.frame_counter inputs)).map
          (fun pr => pr.1.offset)) := by
  have hpush := runPushInputsAt_spec p.last_appsink_sample_time stamped_pts inputs p
    (by rw [Int.sub_self]; decide)
    (by intro hm; rw [hpend]; simpa using hmode hm)
    (by rw [hpend]; simpa using hcap100)
  set pAfter := (runPushInputsAt p.last_appsink_sample_time stamped_pts inputs p).2
    with hpa
  obtain ⟨hres, hpend2, hbase2, hmode2, hframe2, hlast2, hdel2⟩ := hpush
  have hmaps := matchedPairs_maps stamped_pts results inputs p.frame_counter hlen
  have hf := forall₂_meta_pending stamped_pts results inputs p.frame_counter hlen hmeta
  have hdeliv := runDeliveries_spec results
    (pendingEntriesFrom stamped_pts p.frame_counter inputs) [] pAfter
    (by rw [hpend2, hpend, List.nil_append, List.append_nil])
    hf
    (by rw [hbase2, hout, hlen]; simpa using hcapout)
    (by rw [hbase2]; exact hdrain)
  obtain ⟨q, hrun, hq_out, hq_pend, hmax, hdr⟩ := hdeliv
  have hq_out2 : q.appsrcsink_queue.base.queue =
      matchedPairs results (pendingEntriesFrom stamped_pts p.frame_counter inputs) := by
    rw [hq_out, hbase2, hout, List.nil_append]
  have hmlen : (matchedPairs results
      (pendingEntriesFrom stamped_pts p.frame_counter inputs)).length =
      inputs.length := by
    have := congrArg List.length hmaps.1
    simpa using this
  have hpops := runPops_spec
    (matchedPairs results (pendingEntriesFrom stamped_pts p.frame_counter inputs))
    q hq_out2
  rw [hmlen] at hpops
  refine ⟨hres, q, hrun, hq_out2, hpops, hmaps.1, hmaps.2.1, hmaps.2.2, ?_⟩
  rw [hmaps.2.2]
  exact List.Pairwise.chain'
    ((List.pairwise_lt_range' p.frame_counter inputs.length).imp
      (fun h => le_of_lt h))

end GstreamerPipeline

namespace GstreamerPipeline

/-- Witness for C1 at a concrete two-frame run: user data 1, 2 and result
payloads 31, 32 with ids 0, 1. -/
theorem C1_submission_order_preserved_witness :
    (runPushInputsAt 0 0
        [(GstBufferModel.mk 0 0 0 0 0 21 none, 1),
         (GstBufferModel.mk 0 0 0 0 0 22 none, 2)]
        (GstreamerPipeline.mk
          (AppSrcSinkQueue.mk (SPSCFixedQueue.mk [] 5 false) [] 0 0 0 3
            DiscardMode.DISCARD_OUTPUT_FRAMES [])
          0 0 0 false)).1 = List.replicate 2 true ∧
    ∃ q, runDeliveries
        [GstBufferModel.mk 0 0 0 0 0 31 (some 0),
         GstBufferModel.mk 0 0 0 0 0 32 (some 1)]
        (runPushInputsAt 0 0
          [(GstBufferModel.mk 0 0 0 0 0 21 none, 1),
           (GstBufferModel.mk 0 0 0 0 0 22 none, 2)]
          (GstreamerPipeline.mk
            (AppSrcSinkQueue.mk (SPSCFixedQueue.mk [] 5 false) [] 0 0 0 3
              DiscardMode.DISCARD_OUTPUT_FRAMES [])
            0 0 0 false)).2 = some q ∧
      q.appsrcsink_queue.base.queue =
        matchedPairs
          [GstBufferModel.mk 0 0 0 0 0 31 (some 0),
           GstBufferModel.mk 0 0 0 0 0 32 (some 1)]
          (pendingEntriesFrom 0 0
            [(GstBufferModel.mk 0 0 0 0 0 21 none, 1),
             (GstBufferModel.mk 0 0 0 0 0 22 none, 2)]) ∧
      (runPops 2 q).1 =
        (matchedPairs
          [GstBufferModel.mk 0 0 0 0 0 31 (some 0),
           GstBufferModel.mk 0 0 0 0 0 32 (some 1)]
          (pendingEntriesFrom 0 0
            [(GstBufferModel.mk 0 0 0 0 0 21 none, 1),
             (GstBufferModel.mk 0 0 0 0 0 22 none, 2)])).map some ∧
      (matchedPairs
          [GstBufferModel.mk 0 0 0 0 0 31 (some 0),
           GstBufferModel.mk 0 0 0 0 0 32 (some 1)]
          (pendingEntriesFrom 0 0
            [(GstBufferModel.mk 0 0 0 0 0 21 none, 1),
             (GstBufferModel.mk 0 0 0 0 0 22 none, 2)])).map Prod.snd =
        ([(GstBufferModel.mk 0 0 0 0 0 21 none, 1),
          (GstBufferModel.mk 0 0 0 0 0 22 none, 2)] :
            List (GstBufferModel × Nat)).map Prod.snd ∧
      (matchedPairs
          [GstBufferModel.mk 0 0 0 0 0 31 (some 0),
           GstBufferModel.mk 0 0 0 0 0 32 (some 1)]
          (pendingEntriesFrom 0 0
            [(GstBufferModel.mk 0 0 0 0 0 21 none, 1),
             (GstBufferModel.mk 0 0 0 0 0 22 none, 2)])).map
        (fun pr => pr.1.payload) =
        [GstBufferModel.mk 0 0 0 0 0 31 (some 0),
         GstBufferModel.mk 0 0 0 0 0 32 (some 1)].map GstBufferModel.payload ∧
      (matchedPairs
          [GstBufferModel.mk 0 0 0 0 0 31 (some 0),
           GstBufferModel.mk 0 0 0 0 0 32 (some 1)]
          (pendingEntriesFrom 0 0
            [(GstBufferModel.mk 0 0 0 0 0 21 none, 1),
             (GstBufferModel.mk 0 0 0 0 0 22 none, 2)])).map
        (fun pr => pr.1.offset) = List.range' 0 2 ∧
      List.Chain' (· ≤ ·)
        ((matchedPairs
          [GstBufferModel.mk 0 0 0 0 0 31 (some 0),
           GstBufferModel.mk 0 0 0 0 0 32 (some 1)]
          (pendingEntriesFrom 0 0
            [(GstBufferModel.mk 0 0 0 0 0 21 none, 1),
             (GstBufferModel.mk 0 0 0 0 0 22 none, 2)])).map
          (fun pr => pr.1.offset)) := by
  exact C1_submission_order_preserved
    (GstreamerPipeline.mk
      (AppSrcSinkQueue.mk (SPSCFixedQueue.mk [] 5 false) [] 0 0 0 3
        DiscardMode.DISCARD_OUTPUT_FRAMES [])
      0 0 0 false)
    0
    [(GstBufferModel.mk 0 0 0 0 0 21 none, 1),
     (GstBufferModel.mk 0 0 0 0 0 22 none, 2)]
    [GstBufferModel.mk 0 0 0 0 0 31 (some 0),
     GstBufferModel.mk 0 0 0 0 0 32 (some 1)]
    rfl rfl rfl (by decide) (by decide) (by decide) rfl
    (by
      intro i h
      simp only [List.length_cons, List.length_nil] at h
      interval_cases i <;> rfl)

end GstreamerPipeline
